import Mathlib

/-!
# DtlsTransport (erizo) — shallow embedding and verified properties

Embedding of `src/erizo/src/erizo/DtlsTransport.cpp`.

* The transport object is a record (`DtlsTransport`) whose fields carry the
  names of the C++ members.  Every member function is a function from the
  record (and the call's arguments) to the record after the call.
* Calls made on the collaborators (ICE connection, DTLS sessions, SRTP
  channels, Resenders, transport listener) are appended, in program order, to
  the field `calls`.
* Values returned by collaborators whose code is outside this file
  (`setRtpParams`, `protectRtp`, `unprotectRtp`, `checkIceState`, ...) are
  arguments of the embedded function, so every theorem quantifies over them.
* Dereferencing an empty smart pointer is the fault `Fault.nullDeref`.
* The scratch buffers `protectBuf_` and `unprotectBuf_` are members that keep
  their bytes from one call to the next; `memcpy` overwrites their first `len`
  bytes only.
-/

namespace erizo

/-- Raw bytes of a datagram or buffer. -/
abbrev Bytes := List Nat

/-- Modelled from the spec: the `TransportState` enum is declared in
`Transport.h`, which is not part of the sources; the spec lists the states
`INITIAL`, `STARTED`, `READY` and `FAILED`. -/
inductive TransportState where
  | TRANSPORT_INITIAL
  | TRANSPORT_STARTED
  | TRANSPORT_READY
  | TRANSPORT_FAILED
  deriving DecidableEq, Repr

/-- Modelled from the spec: the `IceState` enum is declared in
`NiceConnection.h`, which is not part of the sources.  The code compares
against `NICE_INITIAL`, `NICE_READY` and `NICE_FAILED` only; the remaining
values stand for every other connectivity state. -/
inductive IceState where
  | NICE_INITIAL
  | NICE_CANDIDATES_GATHERED
  | NICE_CANDIDATES_RECEIVED
  | NICE_READY
  | NICE_FINISHED
  | NICE_FAILED
  deriving DecidableEq, Repr

/-- Modelled from the spec: result of `DtlsFactory::demuxPacket`
(`dtls/DtlsFactory.h` is not part of the sources). -/
inductive PacketType where
  | rtp
  | dtls
  | stun
  | unknown
  deriving DecidableEq, Repr

/-- The two member slots of the transport: the RTP one (`dtlsRtp`, `srtp_`,
`rtpResender`) and the RTCP one (`dtlsRtcp`, `srtcp_`, `rtcpResender`). -/
inductive Comp where
  | rtp
  | rtcp
  deriving DecidableEq, Repr

/-- Values a `DtlsSocketContext*` argument can take relative to one transport:
`NULL`, the object owned by `dtlsRtp`, the object owned by `dtlsRtcp`, or any
other object. -/
inductive CtxPtr where
  | null
  | rtp
  | rtcp
  | other
  deriving DecidableEq, Repr

/-- What went wrong when a member function cannot return normally. -/
inductive Fault where
  | nullDeref
  deriving DecidableEq, Repr

/-- The part of a `DtlsSocketContext` the transport reads: the `started` flag. -/
structure DtlsSocketContext where
  started : Bool
  deriving DecidableEq, Repr

/-- Modelled from the spec: `DtlsSocketContext::start` lives in the `dtls`
directory, which is not part of the sources; the spec exposes `start()` together
with the `started` flag, so starting a session sets the flag. -/
def DtlsSocketContext.start (_s : DtlsSocketContext) : DtlsSocketContext :=
  { started := true }

/-- Modelled from the spec: `SrtpChannel` (`SrtpChannel.h`) is not part of the
sources.  A channel is the key material handed to `setRtpParams` together with
the value that call returned. -/
structure SrtpChannel where
  clientKey : String
  serverKey : String
  keysSet : Bool
  deriving DecidableEq, Repr

/-- The ICE connection object created by the constructor with `comps`
components. -/
structure NiceConnection where
  comps : Nat
  deriving DecidableEq, Repr

/-- State of the `boost::asio::deadline_timer` of a Resender: no wait
outstanding, a wait outstanding whose delay has not elapsed, or a delay that
has elapsed with the handler not yet run. -/
inductive TimerState where
  | idle
  | waiting
  | fired
  deriving DecidableEq, Repr

/-- The `Resender` object: constructor arguments, `sent_` and the timer. -/
structure Resender where
  nice_ : Option NiceConnection
  comp_ : Nat
  data_ : Bytes
  len_ : Nat
  sent_ : Int
  timer : TimerState
  deriving DecidableEq, Repr

/-- Outcome of one `protect*`/`unprotect*` call on an `SrtpChannel`: the value
returned, and the length and buffer contents it leaves behind. -/
structure SrtpResult where
  ret : Int
  length : Int
  buf : Bytes
  deriving DecidableEq, Repr

/-- Calls made by the transport on its collaborators. -/
inductive Call where
  | resenderCancel (c : Comp)
  | resenderStart (c : Comp) (comp : Nat) (data : Bytes) (len : Nat)
  | dtlsRead (c : Comp) (data : Bytes) (len : Int)
  | dtlsStart (c : Comp)
  | unprotectRtp (c : Comp) (ch : SrtpChannel) (buf : Bytes) (length : Int)
  | unprotectRtcp (c : Comp) (ch : SrtpChannel) (buf : Bytes) (length : Int)
  | protectRtp (c : Comp) (ch : SrtpChannel) (buf : Bytes) (length : Int)
  | protectRtcp (c : Comp) (ch : SrtpChannel) (buf : Bytes) (length : Int)
  | sendData (comp : Nat) (data : Bytes) (len : Int)
  | onTransportData (buf : Bytes) (len : Int)
  | onCandidate (sdp : String)
  deriving DecidableEq, Repr

/-- Functions of other files that the transport calls on packet bytes:
`DtlsFactory::demuxPacket` and `RtcpHeader::isRtcp`. -/
structure PacketFns where
  demuxPacket : Bytes → Int → PacketType
  isRtcp : Bytes → Bool

/-- The `DtlsTransport` object.  `state_` is the transport state kept by the
base class `Transport`; `dtlsRtp` is created by the constructor and never
reset, so it is not optional.  `protectBuf_` and `unprotectBuf_` are the
scratch buffers `write` and `onNiceData` copy each record into. -/
structure DtlsTransport where
  state_ : TransportState
  rtcp_mux_ : Bool
  bundle_ : Bool
  readyRtp : Bool
  readyRtcp : Bool
  running_ : Bool
  dtlsRtp : DtlsSocketContext
  dtlsRtcp : Option DtlsSocketContext
  srtp_ : Option SrtpChannel
  srtcp_ : Option SrtpChannel
  rtpResender : Option Resender
  rtcpResender : Option Resender
  nice_ : Option NiceConnection
  protectBuf_ : Bytes
  unprotectBuf_ : Bytes
  calls : List Call
  deriving DecidableEq, Repr

/-- Value of `Transport::getTransportState()`. -/
def getTransportState (t : DtlsTransport) : TransportState :=
  t.state_

/-- Modelled from the spec: `Transport::updateTransportState` is defined in
`Transport.h`, which is not part of the sources; the spec describes every call
as a transition of the transport state to the named state. -/
def updateTransportState (t : DtlsTransport) (s : TransportState) : DtlsTransport :=
  { t with state_ := s }

/-- Value of `dtlsRtp.get()`. -/
def dtlsRtpGet (_t : DtlsTransport) : CtxPtr :=
  CtxPtr.rtp

/-- Value of `dtlsRtcp.get()`: `NULL` when no RTCP session was created. -/
def dtlsRtcpGet (t : DtlsTransport) : CtxPtr :=
  match t.dtlsRtcp with
  | none => CtxPtr.null
  | some _ => CtxPtr.rtcp

/-- Append one collaborator call to the record of calls. -/
def logCall (t : DtlsTransport) (c : Call) : DtlsTransport :=
  { t with calls := t.calls ++ [c] }

/-- The constructor `DtlsTransport::DtlsTransport`.  It does not write to the
scratch buffers: they start without any byte of an earlier record. -/
def DtlsTransport.new (bundle rtcp_mux : Bool) : DtlsTransport :=
  { state_ := TransportState.TRANSPORT_INITIAL
    rtcp_mux_ := rtcp_mux
    bundle_ := bundle
    readyRtp := false
    readyRtcp := false
    running_ := true
    dtlsRtp := { started := false }
    dtlsRtcp := if rtcp_mux then none else some { started := false }
    srtp_ := none
    srtcp_ := none
    rtpResender := none
    rtcpResender := none
    nice_ := some { comps := if rtcp_mux then 1 else 2 }
    protectBuf_ := []
    unprotectBuf_ := []
    calls := [] }

/-- `Resender::cancel`: `timer.cancel()` aborts a wait whose delay has not
elapsed and cannot recall a handler of an elapsed delay; then `sent_ = 1`. -/
def Resender.cancel (r : Resender) : Resender :=
  { r with
    timer := match r.timer with
      | TimerState.waiting => TimerState.idle
      | s => s
    sent_ := 1 }

/-- `Resender::start` on a Resender that has no worker thread yet. -/
def Resender.start (r : Resender) : Resender :=
  { r with sent_ := 0, timer := TimerState.waiting }

/-- `Resender::getStatus`. -/
def Resender.getStatus (r : Resender) : Int :=
  r.sent_

/-- `memcpy(dst, src, len)` into a scratch buffer: the first `len` bytes of
`dst` become the first `len` bytes of `src` and the bytes of `dst` after them
stay.  The callers pass the number of bytes of the record as `len`
(`getNiceDataLoop` calls `onNiceData` only for a positive length).  The C
function is not defined for a negative `len`; here such a call copies
nothing. -/
def memcpy (dst src : Bytes) (len : Int) : Bytes :=
  src.take len.toNat ++ dst.drop len.toNat

/-- Assignment of new contents to the scratch buffer `unprotectBuf_`. -/
def setUnprotectBuf (t : DtlsTransport) (buf : Bytes) : DtlsTransport :=
  { t with unprotectBuf_ := buf }

/-- Assignment of new contents to the scratch buffer `protectBuf_`. -/
def setProtectBuf (t : DtlsTransport) (buf : Bytes) : DtlsTransport :=
  { t with protectBuf_ := buf }

/-- `DtlsTransport::isDtlsPacket`. -/
def isDtlsPacket (fns : PacketFns) (buf : Bytes) (len : Int) : Bool :=
  match fns.demuxPacket buf len with
  | PacketType.dtls => true
  | _ => false

/-- Modelled from the spec: `Transport::writeOnNice` is defined in
`Transport.h`, which is not part of the sources; it forwards the buffer to the
ICE connection's `sendData` on the given component. -/
def writeOnNice (t : DtlsTransport) (comp : Nat) (buf : Bytes) (len : Int) : DtlsTransport :=
  logCall t (Call.sendData comp buf len)

/-- `rtpResender->cancel()` when `rtpResender.get() != NULL`. -/
def cancelRtpResender (t : DtlsTransport) : DtlsTransport :=
  match t.rtpResender with
  | none => t
  | some r => logCall { t with rtpResender := some r.cancel } (Call.resenderCancel Comp.rtp)

/-- `rtcpResender->cancel()` when `rtcpResender.get() != NULL`. -/
def cancelRtcpResender (t : DtlsTransport) : DtlsTransport :=
  match t.rtcpResender with
  | none => t
  | some r => logCall { t with rtcpResender := some r.cancel } (Call.resenderCancel Comp.rtcp)

/-- The channel `srtp` points to in `onNiceData` after the component test,
with the slot it was read from. -/
def onNiceDataChannel (t : DtlsTransport) (component_id : Nat) : Comp × Option SrtpChannel :=
  if t.dtlsRtcp.isSome ∧ component_id = 2 then (Comp.rtcp, t.srtcp_) else (Comp.rtp, t.srtp_)

/-- The media branch of `DtlsTransport::onNiceData` after the datagram has
been copied into `unprotectBuf_` (lines 145 to 167): channel selection, header
test on `unprotectBuf_`, unprotect call and delivery.  `res` is the outcome of
the unprotect call, when one is made: the value returned, and the length and
the contents of `unprotectBuf_` the call leaves behind. -/
def onNiceDataMedia (fns : PacketFns) (t : DtlsTransport) (component_id : Nat) (len : Int)
    (res : SrtpResult) : DtlsTransport :=
  match onNiceDataChannel t component_id with
  | (_, none) => t
  | (c, some srtp) =>
    let t1 :=
      if fns.isRtcp t.unprotectBuf_ then
        logCall t (Call.unprotectRtcp c srtp t.unprotectBuf_ len)
      else logCall t (Call.unprotectRtp c srtp t.unprotectBuf_ len)
    let t2 := setUnprotectBuf t1 res.buf
    if res.ret < 0 then t2
    else if res.length ≤ 0 then t2
    else logCall t2 (Call.onTransportData t2.unprotectBuf_ res.length)

/-- `DtlsTransport::onNiceData`.  `res` is the outcome of the `unprotectRtcp`
or `unprotectRtp` call, when one is made.  In state READY a datagram that is
not DTLS is first copied over the start of `unprotectBuf_`. -/
def onNiceData (fns : PacketFns) (t : DtlsTransport) (component_id : Nat) (data : Bytes)
    (len : Int) (res : SrtpResult) : Except Fault DtlsTransport :=
  if isDtlsPacket fns data len then
    if component_id = 1 then
      let t1 := cancelRtpResender t
      Except.ok (logCall t1 (Call.dtlsRead Comp.rtp data len))
    else
      let t1 := cancelRtcpResender t
      match t1.dtlsRtcp with
      | none => Except.error Fault.nullDeref
      | some _ => Except.ok (logCall t1 (Call.dtlsRead Comp.rtcp data len))
  else if getTransportState t = TransportState.TRANSPORT_READY then
    Except.ok
      (onNiceDataMedia fns (setUnprotectBuf t (memcpy t.unprotectBuf_ data len)) component_id
        len res)
  else Except.ok t

/-- The end of `DtlsTransport::write`: the length test and the send guarded
by the second `checkIceState` call. -/
def writeTail (t : DtlsTransport) (comp : Nat) (protectBuf_ : Bytes) (length : Int)
    (ice2 : IceState) : DtlsTransport :=
  if length ≤ 10 then t
  else if ice2 = IceState.NICE_READY then writeOnNice t comp protectBuf_ length
  else t

/-- The body of `DtlsTransport::write` in state READY after the record has
been copied into `protectBuf_` (lines 216 to 245): header test on
`protectBuf_`, component and channel selection, protect call, length test and
send.  `ice1` is the answer of the `checkIceState` call that guards the protect
call, `ice2` the answer of the one that guards `writeOnNice`, and `res` the
outcome of the protect call (the value returned, and the length and the
contents of `protectBuf_` it leaves behind), each when made. -/
def writeReady (fns : PacketFns) (t : DtlsTransport) (len : Int) (ice1 ice2 : IceState)
    (res : SrtpResult) : DtlsTransport :=
  if fns.isRtcp t.protectBuf_ then
    let comp : Nat := if !t.rtcp_mux_ then 2 else 1
    let sel : Comp × Option SrtpChannel :=
      if t.dtlsRtcp.isSome then (Comp.rtcp, t.srtcp_) else (Comp.rtp, t.srtp_)
    match sel with
    | (c, some srtp) =>
      if ice1 = IceState.NICE_READY then
        let t1 := setProtectBuf (logCall t (Call.protectRtcp c srtp t.protectBuf_ len)) res.buf
        if res.ret < 0 then t1 else writeTail t1 comp t1.protectBuf_ res.length ice2
      else writeTail t comp t.protectBuf_ len ice2
    | (_, none) => writeTail t comp t.protectBuf_ len ice2
  else
    match t.srtp_ with
    | some srtp =>
      if ice1 = IceState.NICE_READY then
        let t1 :=
          setProtectBuf (logCall t (Call.protectRtp Comp.rtp srtp t.protectBuf_ len)) res.buf
        if res.ret < 0 then t1 else writeTail t1 1 t1.protectBuf_ res.length ice2
      else writeTail t 1 t.protectBuf_ len ice2
    | none => writeTail t 1 t.protectBuf_ len ice2

/-- `DtlsTransport::write`.  In state READY the record is first copied over
the start of `protectBuf_`; the arguments `ice1`, `ice2` and `res` are those of
`writeReady`. -/
def write (fns : PacketFns) (t : DtlsTransport) (data : Bytes) (len : Int)
    (ice1 ice2 : IceState) (res : SrtpResult) : DtlsTransport :=
  match t.nice_ with
  | none => t
  | some _ =>
    if getTransportState t = TransportState.TRANSPORT_READY then
      writeReady fns (setProtectBuf t (memcpy t.protectBuf_ data len)) len ice1 ice2 res
    else t

/-- `DtlsTransport::writeDtls`. -/
def writeDtls (t : DtlsTransport) (ctx : CtxPtr) (data : Bytes) (len : Nat) :
    Except Fault DtlsTransport :=
  let fresh (comp : Nat) : Resender :=
    Resender.start { nice_ := t.nice_, comp_ := comp, data_ := data, len_ := len, sent_ := 0,
                     timer := TimerState.idle }
  let comp : Nat := if ctx = dtlsRtcpGet t then 2 else 1
  let t1 :=
    if ctx = dtlsRtcpGet t then
      logCall { t with rtcpResender := some (fresh 2) } (Call.resenderStart Comp.rtcp 2 data len)
    else
      logCall { t with rtpResender := some (fresh 1) } (Call.resenderStart Comp.rtp 1 data len)
  match t1.nice_ with
  | none => Except.error Fault.nullDeref
  | some _ => Except.ok (logCall t1 (Call.sendData comp data len))

/-- `DtlsTransport::onHandshakeCompleted`.  `keysOk` is the value returned by
`setRtpParams` on the channel created by this call. -/
def onHandshakeCompleted (t : DtlsTransport) (ctx : CtxPtr) (clientKey serverKey : String)
    (_srtp_profile : String) (keysOk : Bool) : DtlsTransport :=
  let t1 :=
    if ctx = dtlsRtpGet t then
      let a := { t with srtp_ := some { clientKey := clientKey, serverKey := serverKey,
                                        keysSet := keysOk } }
      let b := if keysOk then { a with readyRtp := true }
               else updateTransportState a TransportState.TRANSPORT_FAILED
      if b.dtlsRtcp.isNone then { b with readyRtcp := true } else b
    else t
  let t2 :=
    if ctx = dtlsRtcpGet t1 then
      let a := { t1 with srtcp_ := some { clientKey := clientKey, serverKey := serverKey,
                                          keysSet := keysOk } }
      if keysOk then { a with readyRtcp := true }
      else updateTransportState a TransportState.TRANSPORT_FAILED
    else t1
  if t2.readyRtp ∧ t2.readyRtcp then updateTransportState t2 TransportState.TRANSPORT_READY
  else t2

/-- `dtlsRtp->start()`. -/
def startDtlsRtp (t : DtlsTransport) : DtlsTransport :=
  logCall { t with dtlsRtp := t.dtlsRtp.start } (Call.dtlsStart Comp.rtp)

/-- `dtlsRtcp->start()` on the existing RTCP session `s`. -/
def startDtlsRtcp (t : DtlsTransport) (s : DtlsSocketContext) : DtlsTransport :=
  logCall { t with dtlsRtcp := some s.start } (Call.dtlsStart Comp.rtcp)

/-- The RTP statement of the `NICE_READY` branch of `updateIceState`:
`if (!dtlsRtp->started || rtpResender->getStatus() < 0) dtlsRtp->start()`. -/
def restartRtp (t : DtlsTransport) : Except Fault DtlsTransport :=
  if !t.dtlsRtp.started then Except.ok (startDtlsRtp t)
  else
    match t.rtpResender with
    | none => Except.error Fault.nullDeref
    | some r => if r.getStatus < 0 then Except.ok (startDtlsRtp t) else Except.ok t

/-- The RTCP statement of the `NICE_READY` branch of `updateIceState`:
`if (dtlsRtcp != NULL && (!dtlsRtcp->started || rtcpResender->getStatus() < 0))
dtlsRtcp->start()`. -/
def restartRtcp (t : DtlsTransport) : Except Fault DtlsTransport :=
  match t.dtlsRtcp with
  | none => Except.ok t
  | some s =>
    if !s.started then Except.ok (startDtlsRtcp t s)
    else
      match t.rtcpResender with
      | none => Except.error Fault.nullDeref
      | some r => if r.getStatus < 0 then Except.ok (startDtlsRtcp t s) else Except.ok t

/-- `DtlsTransport::updateIceState`. -/
def updateIceState (t : DtlsTransport) (state : IceState) : Except Fault DtlsTransport :=
  let t1 :=
    if state = IceState.NICE_INITIAL ∧ getTransportState t ≠ TransportState.TRANSPORT_STARTED then
      updateTransportState t TransportState.TRANSPORT_STARTED
    else t
  let t2 :=
    if state = IceState.NICE_FAILED then
      updateTransportState { t1 with running_ := false } TransportState.TRANSPORT_FAILED
    else t1
  if state = IceState.NICE_READY then
    match restartRtp t2 with
    | Except.error e => Except.error e
    | Except.ok t3 => restartRtcp t3
  else Except.ok t2

/-- One handshake-completion callback: the arguments of `onHandshakeCompleted`
and the outcome of `setRtpParams`. -/
structure HandshakeCb where
  ctx : CtxPtr
  clientKey : String
  serverKey : String
  srtp_profile : String
  keysOk : Bool
  deriving DecidableEq, Repr

/-- The transport after a sequence of handshake-completion callbacks, first
callback first. -/
def runHandshakes (t : DtlsTransport) (cbs : List HandshakeCb) : DtlsTransport :=
  cbs.foldl (fun s cb => onHandshakeCompleted s cb.ctx cb.clientKey cb.serverKey
    cb.srtp_profile cb.keysOk) t

/-- The calls a member function added to the record: those of `t2` after the
ones already recorded in `t1`. -/
def callsMade (t1 t2 : DtlsTransport) : List Call :=
  t2.calls.drop t1.calls.length

/-- The Resender held in the slot `c`. -/
def resenderOf (t : DtlsTransport) : Comp → Option Resender
  | Comp.rtp => t.rtpResender
  | Comp.rtcp => t.rtcpResender

/-- The slot that is not `c`. -/
def Comp.other : Comp → Comp
  | Comp.rtp => Comp.rtcp
  | Comp.rtcp => Comp.rtp

/-- The slot a datagram's component id selects in the DTLS branch of
`onNiceData`: the RTP slot for component 1, the RTCP slot otherwise. -/
def dtlsSlot (component_id : Nat) : Comp :=
  if component_id = 1 then Comp.rtp else Comp.rtcp

/-- A call that hands a datagram to the ICE connection. -/
def Call.isSendData : Call → Bool
  | Call.sendData _ _ _ => true
  | _ => false

/-- A call that delivers a buffer to the transport listener. -/
def Call.isOnTransportData : Call → Bool
  | Call.onTransportData _ _ => true
  | _ => false

/-- A call that hands bytes to a DTLS session. -/
def Call.isDtlsRead : Call → Bool
  | Call.dtlsRead _ _ _ => true
  | _ => false

/-- A call of `protectRtp` or `protectRtcp`. -/
def Call.isProtect : Call → Bool
  | Call.protectRtp _ _ _ _ => true
  | Call.protectRtcp _ _ _ _ => true
  | _ => false

/-- A call of `unprotectRtp` or `unprotectRtcp`. -/
def Call.isUnprotect : Call → Bool
  | Call.unprotectRtp _ _ _ _ => true
  | Call.unprotectRtcp _ _ _ _ => true
  | _ => false

/-- The facts that tie the readiness flags and the state of a transport to the
callbacks it has received since construction. -/
structure HandshakeInv (rtcp_mux : Bool) (cbs : List HandshakeCb) (t : DtlsTransport) : Prop where
  sessions : t.dtlsRtcp.isSome = !rtcp_mux
  rtp : t.readyRtp = true ↔ ∃ cb ∈ cbs, cb.ctx = CtxPtr.rtp ∧ cb.keysOk = true
  rtcp : t.readyRtcp = true ↔
    if rtcp_mux then ∃ cb ∈ cbs, cb.ctx = CtxPtr.rtp ∨ (cb.ctx = CtxPtr.null ∧ cb.keysOk = true)
    else ∃ cb ∈ cbs, cb.ctx = CtxPtr.rtcp ∧ cb.keysOk = true
  ready : t.state_ = TransportState.TRANSPORT_READY ↔
    (cbs ≠ [] ∧ t.readyRtp = true ∧ t.readyRtcp = true)

/-- Transport `t2` agrees with `t1` on everything except the record of calls,
the two Resenders and the two scratch buffers: the state, the flags, the
sessions, the channels and the ICE connection are the same. -/
structure Frame (t1 t2 : DtlsTransport) : Prop where
  state_ : t2.state_ = t1.state_
  rtcp_mux_ : t2.rtcp_mux_ = t1.rtcp_mux_
  bundle_ : t2.bundle_ = t1.bundle_
  readyRtp : t2.readyRtp = t1.readyRtp
  readyRtcp : t2.readyRtcp = t1.readyRtcp
  running_ : t2.running_ = t1.running_
  dtlsRtp : t2.dtlsRtp = t1.dtlsRtp
  dtlsRtcp : t2.dtlsRtcp = t1.dtlsRtcp
  srtp_ : t2.srtp_ = t1.srtp_
  srtcp_ : t2.srtcp_ = t1.srtcp_
  nice_ : t2.nice_ = t1.nice_

/-- The unprotect call `onNiceData` makes on channel `srtp` of slot `c`:
`unprotectRtcp` when the header of the copied record is RTCP, otherwise
`unprotectRtp`. -/
def unprotectCall (fns : PacketFns) (c : Comp) (srtp : SrtpChannel) (buf : Bytes) (len : Int) :
    Call :=
  if fns.isRtcp buf then Call.unprotectRtcp c srtp buf len else Call.unprotectRtp c srtp buf len

/-- The component `write` sends a record on: 2 for a record whose header is
RTCP when `rtcp_mux_` is false, otherwise 1. -/
def writeComp (fns : PacketFns) (t : DtlsTransport) (buf : Bytes) : Nat :=
  if fns.isRtcp buf = true ∧ t.rtcp_mux_ = false then 2 else 1

/-- The channel `srtp` points to in `write` when the protect call is reached,
with the slot it was read from: `srtcp_` for a record whose header is RTCP when
the RTCP session exists, otherwise `srtp_`. -/
def writeChannel (fns : PacketFns) (t : DtlsTransport) (buf : Bytes) : Comp × Option SrtpChannel :=
  if fns.isRtcp buf = true ∧ t.dtlsRtcp.isSome = true then (Comp.rtcp, t.srtcp_)
  else (Comp.rtp, t.srtp_)

/-- The protect call `write` makes on channel `srtp` of slot `c`: `protectRtcp`
when the header of the copied record is RTCP, otherwise `protectRtp`. -/
def protectCall (fns : PacketFns) (c : Comp) (srtp : SrtpChannel) (buf : Bytes) (len : Int) :
    Call :=
  if fns.isRtcp buf then Call.protectRtcp c srtp buf len else Call.protectRtp c srtp buf len

/-- The transport state `updateIceState` leaves behind, as a function of the
ICE state reported and the transport state before the call. -/
def stateAfterIce (s : IceState) (before : TransportState) : TransportState :=
  match s with
  | IceState.NICE_INITIAL => TransportState.TRANSPORT_STARTED
  | IceState.NICE_FAILED => TransportState.TRANSPORT_FAILED
  | _ => before

/-- Transport `t2` agrees with `t1` on the state, the readiness flags, the
channels, the ICE connection, the mux flag and on which sessions exist. -/
structure KeyFrame (t1 t2 : DtlsTransport) : Prop where
  state_ : t2.state_ = t1.state_
  rtcp_mux_ : t2.rtcp_mux_ = t1.rtcp_mux_
  readyRtp : t2.readyRtp = t1.readyRtp
  readyRtcp : t2.readyRtcp = t1.readyRtcp
  dtlsRtcp : t2.dtlsRtcp.isSome = t1.dtlsRtcp.isSome
  srtp_ : t2.srtp_ = t1.srtp_
  srtcp_ : t2.srtcp_ = t1.srtcp_
  nice_ : t2.nice_ = t1.nice_

/-- Sample packet functions for evaluating the embedding on concrete
datagrams (the sources do not contain `demuxPacket` and `isRtcp`): a datagram is
DTLS when its first byte lies between 20 and 63, and a record is RTCP when its
second byte lies between 200 and 206. -/
def sampleFns : PacketFns where
  demuxPacket := fun buf _ =>
    match buf with
    | [] => PacketType.unknown
    | b :: _ => if 20 ≤ b ∧ b ≤ 63 then PacketType.dtls else PacketType.rtp
  isRtcp := fun buf =>
    match buf with
    | _ :: pt :: _ => decide (200 ≤ pt ∧ pt ≤ 206)
    | _ => false

/-- A non-muxed transport on which both sessions have completed their
handshake with valid keys. -/
def readyTransport : DtlsTransport :=
  runHandshakes (DtlsTransport.new false false)
    [{ ctx := CtxPtr.rtp, clientKey := "rtp-client", serverKey := "rtp-server",
       srtp_profile := "SRTP_AES128_CM_SHA1_80", keysOk := true },
     { ctx := CtxPtr.rtcp, clientKey := "rtcp-client", serverKey := "rtcp-server",
       srtp_profile := "SRTP_AES128_CM_SHA1_80", keysOk := true }]

/-- A non-muxed transport whose ICE connection has reported `NICE_FAILED`
right after construction. -/
def failedTransport : DtlsTransport :=
  match updateIceState (DtlsTransport.new false false) IceState.NICE_FAILED with
  | Except.ok t => t
  | Except.error _ => DtlsTransport.new false false

/-- A fresh non-muxed transport after its RTP session has sent one handshake
flight through `writeDtls`, so that an RTP Resender is armed. -/
def flightSentTransport : DtlsTransport :=
  match writeDtls (DtlsTransport.new false false) CtxPtr.rtp [22, 254, 255] 3 with
  | Except.ok t => t
  | Except.error _ => DtlsTransport.new false false

/-- `Resender::resend`, the handler of the timer wait.  `aborted` says that the
error code is `operation_aborted`, and `val` is the value `sendData` returns
when the call is made.  The result is the Resender after the handler and the
calls the handler made. -/
def Resender.resend (r : Resender) (aborted : Bool) (val : Int) : Resender × List Call :=
  if aborted then (r, [])
  else
    match r.nice_ with
    | none => (r, [])
    | some _ =>
      ({ r with sent_ := if val < 0 then -1 else 2 }, [Call.sendData r.comp_ r.data_ r.len_])

/-- Modelled from the spec: the `HostType` enum is declared in `SdpInfo.h`,
which is not part of the sources; its values are the case labels of the switch
in `onCandidate`. -/
inductive HostType where
  | HOST
  | SRFLX
  | PRFLX
  | RELAY
  deriving DecidableEq, Repr

/-- Modelled from the spec: `CandidateInfo` is declared in `SdpInfo.h`, which
is not part of the sources; these are the fields `onCandidate` reads.  The
numeric fields are written to the stream in decimal. -/
structure CandidateInfo where
  foundation : String
  componentId : Nat
  netProtocol : String
  priority : Nat
  hostAddress : String
  hostPort : Nat
  hostType : HostType
  rAddress : String
  rPort : Nat
  deriving DecidableEq, Repr

/-- The `std::ostringstream sdp` of `onCandidate`: the pieces written so far,
first piece first. -/
abbrev OStringStream := List String

/-- The value of `sdp.str()`. -/
def OStringStream.str (sdp : OStringStream) : String :=
  String.join sdp

/-- The string `onCandidate` builds in `sdp` and hands to the listener. -/
def candidateSdp (candidate : CandidateInfo) : String :=
  let generation := " generation 0"
  let hostType_str :=
    match candidate.hostType with
    | HostType.HOST => "host"
    | HostType.SRFLX => "srflx"
    | HostType.PRFLX => "prflx"
    | HostType.RELAY => "relay"
  let sdp : OStringStream :=
    ["a=candidate:", candidate.foundation, " ", toString candidate.componentId,
     " ", candidate.netProtocol, " ", toString candidate.priority, " ",
     candidate.hostAddress, " ", toString candidate.hostPort, " typ ",
     hostType_str]
  let sdp : OStringStream :=
    if candidate.hostType = HostType.SRFLX ∨ candidate.hostType = HostType.RELAY then
      sdp ++ [" raddr ", candidate.rAddress, " rport ", toString candidate.rPort]
    else sdp
  let sdp : OStringStream := sdp ++ [generation]
  sdp.str

/-- `DtlsTransport::onCandidate`. -/
def onCandidate (t : DtlsTransport) (candidate : CandidateInfo) : DtlsTransport :=
  logCall t (Call.onCandidate (candidateSdp candidate))

/-- The handler of the RTP Resender's timer runs with a success error code,
which needs a wait that was armed and not aborted; `val` is the value its
`sendData` call returns. -/
def rtpResenderFires (t : DtlsTransport) (val : Int) : DtlsTransport :=
  match t.rtpResender with
  | none => t
  | some r =>
    if r.timer = TimerState.idle then t
    else
      { t with rtpResender := some { (r.resend false val).1 with timer := TimerState.idle },
               calls := t.calls ++ (r.resend false val).2 }

/-- The handler of the RTCP Resender's timer runs with a success error code,
which needs a wait that was armed and not aborted; `val` is the value its
`sendData` call returns. -/
def rtcpResenderFires (t : DtlsTransport) (val : Int) : DtlsTransport :=
  match t.rtcpResender with
  | none => t
  | some r =>
    if r.timer = TimerState.idle then t
    else
      { t with rtcpResender := some { (r.resend false val).1 with timer := TimerState.idle },
               calls := t.calls ++ (r.resend false val).2 }

/-- The transports that can be reached from the constructor by the member
functions that are called from outside (`onNiceData`, `onCandidate`, `write`,
`writeDtls`, `onHandshakeCompleted`, `updateIceState`) and by the handlers of
the Resender timers. -/
inductive Reachable : DtlsTransport → Prop where
  | new (bundle rtcp_mux : Bool) : Reachable (DtlsTransport.new bundle rtcp_mux)
  | onNiceData {t t2 : DtlsTransport} (fns : PacketFns) (component_id : Nat) (data : Bytes)
      (len : Int) (res : SrtpResult) :
      Reachable t → onNiceData fns t component_id data len res = Except.ok t2 → Reachable t2
  | onCandidate {t : DtlsTransport} (candidate : CandidateInfo) :
      Reachable t → Reachable (onCandidate t candidate)
  | write {t : DtlsTransport} (fns : PacketFns) (data : Bytes) (len : Int)
      (ice1 ice2 : IceState) (res : SrtpResult) :
      Reachable t → Reachable (write fns t data len ice1 ice2 res)
  | writeDtls {t t2 : DtlsTransport} (ctx : CtxPtr) (data : Bytes) (len : Nat) :
      Reachable t → writeDtls t ctx data len = Except.ok t2 → Reachable t2
  | onHandshakeCompleted {t : DtlsTransport} (ctx : CtxPtr) (clientKey serverKey : String)
      (srtp_profile : String) (keysOk : Bool) :
      Reachable t → Reachable (onHandshakeCompleted t ctx clientKey serverKey srtp_profile keysOk)
  | updateIceState {t t2 : DtlsTransport} (state : IceState) :
      Reachable t → updateIceState t state = Except.ok t2 → Reachable t2
  | rtpResenderFires {t : DtlsTransport} (val : Int) :
      Reachable t → Reachable (rtpResenderFires t val)
  | rtcpResenderFires {t : DtlsTransport} (val : Int) :
      Reachable t → Reachable (rtcpResenderFires t val)

/-- The test `!session->started || resender->getStatus() < 0` of the
`NICE_READY` branch of `updateIceState`, for a session whose Resender exists
whenever the session has started. -/
def restartNeeded (started : Bool) (resender : Option Resender) : Bool :=
  !started ||
    match resender with
    | some r => decide (r.getStatus < 0)
    | none => false

/-- Whether `write` reaches its protect call: the selected channel exists and
the first `checkIceState` call answers `NICE_READY`. -/
def writeProtects (fns : PacketFns) (t : DtlsTransport) (buf : Bytes) (ice1 : IceState) : Bool :=
  (writeChannel fns t buf).2.isSome && decide (ice1 = IceState.NICE_READY)

/-- The slot whose Resender `writeDtls` replaces: the RTCP slot when the
pointer is the value of `dtlsRtcp.get()`, otherwise the RTP slot. -/
def writeDtlsSlot (t : DtlsTransport) (ctx : CtxPtr) : Comp :=
  if ctx = dtlsRtcpGet t then Comp.rtcp else Comp.rtp

/-- The component `writeDtls` sends on: 2 when the pointer is the value of
`dtlsRtcp.get()`, otherwise 1. -/
def writeDtlsComp (t : DtlsTransport) (ctx : CtxPtr) : Nat :=
  if ctx = dtlsRtcpGet t then 2 else 1

/-- A non-muxed transport on which `NICE_READY` has started both sessions,
each session has sent one flight through `writeDtls`, and the resend of the
RTCP flight has run with a `sendData` that returned -1. -/
def rtcpResendFailedTransport : DtlsTransport :=
  match updateIceState (DtlsTransport.new false false) IceState.NICE_READY with
  | Except.error _ => DtlsTransport.new false false
  | Except.ok t1 =>
    match writeDtls t1 CtxPtr.rtp [22, 1] 2 with
    | Except.error _ => t1
    | Except.ok t2 =>
      match writeDtls t2 CtxPtr.rtcp [22, 2] 2 with
      | Except.error _ => t2
      | Except.ok t3 => rtcpResenderFires t3 (-1)

/-- A Resender as `writeDtls` creates it for a two-byte flight on component 1
of a connection with two components. -/
def sampleResender : Resender :=
  Resender.start { nice_ := some { comps := 2 }, comp_ := 1, data_ := [22, 1], len_ := 2,
                   sent_ := 0, timer := TimerState.idle }

/-- The READY transport after it has processed a four-byte RTCP record on
component 1 whose unprotect call left `[128, 200, 9, 9]` in `unprotectBuf_`. -/
def rtcpReceivedTransport : DtlsTransport :=
  match onNiceData sampleFns readyTransport 1 [128, 200, 0, 1] 4
      { ret := 0, length := 4, buf := [128, 200, 9, 9] } with
  | Except.ok t => t
  | Except.error _ => readyTransport

/-! ## Handshake completion and readiness -/

theorem runHandshakes_append (t : DtlsTransport) (cbs : List HandshakeCb) (cb : HandshakeCb) :
    runHandshakes t (cbs ++ [cb]) =
      onHandshakeCompleted (runHandshakes t cbs) cb.ctx cb.clientKey cb.serverKey
        cb.srtp_profile cb.keysOk := by
  simp [runHandshakes, List.foldl_append]

theorem exists_mem_append_singleton {α : Type} (p : α → Prop) (xs : List α) (x : α) :
    (∃ y ∈ xs ++ [x], p y) ↔ ((∃ y ∈ xs, p y) ∨ p x) := by
  constructor
  · rintro ⟨y, hy, hp⟩
    rcases List.mem_append.mp hy with h | h
    · exact Or.inl ⟨y, h, hp⟩
    · rw [List.mem_singleton] at h
      exact Or.inr (h ▸ hp)
  · rintro (⟨y, hy, hp⟩ | hp)
    · exact ⟨y, List.mem_append.mpr (Or.inl hy), hp⟩
    · exact ⟨x, List.mem_append.mpr (Or.inr (List.mem_singleton.mpr rfl)), hp⟩

theorem handshakeInv_new (bundle rtcp_mux : Bool) :
    HandshakeInv rtcp_mux [] (DtlsTransport.new bundle rtcp_mux) := by
  constructor
  · cases rtcp_mux <;> simp [DtlsTransport.new]
  · simp [DtlsTransport.new]
  · cases rtcp_mux <;> simp [DtlsTransport.new]
  · simp [DtlsTransport.new]

theorem onHandshakeCompleted_dtlsRtcp (t : DtlsTransport) (ctx : CtxPtr) (ck sk prof : String)
    (ok : Bool) : (onHandshakeCompleted t ctx ck sk prof ok).dtlsRtcp = t.dtlsRtcp := by
  unfold onHandshakeCompleted
  cases ctx <;> cases ok <;> cases h : t.dtlsRtcp <;> cases h1 : t.readyRtp <;>
    cases h2 : t.readyRtcp <;>
    simp [dtlsRtpGet, dtlsRtcpGet, updateTransportState, h, h1, h2]

theorem onHandshakeCompleted_readyRtp (t : DtlsTransport) (ctx : CtxPtr) (ck sk prof : String)
    (ok : Bool) :
    (onHandshakeCompleted t ctx ck sk prof ok).readyRtp =
      (t.readyRtp || (decide (ctx = CtxPtr.rtp) && ok)) := by
  unfold onHandshakeCompleted
  cases ctx <;> cases ok <;> cases h : t.dtlsRtcp <;> cases h1 : t.readyRtp <;>
    cases h2 : t.readyRtcp <;>
    simp [dtlsRtpGet, dtlsRtcpGet, updateTransportState, h, h1, h2]

theorem onHandshakeCompleted_readyRtcp (t : DtlsTransport) (ctx : CtxPtr) (ck sk prof : String)
    (ok : Bool) :
    (onHandshakeCompleted t ctx ck sk prof ok).readyRtcp =
      (t.readyRtcp || (decide (ctx = CtxPtr.rtp) && t.dtlsRtcp.isNone)
        || (decide (ctx = dtlsRtcpGet t) && ok)) := by
  unfold onHandshakeCompleted
  cases ctx <;> cases ok <;> cases h : t.dtlsRtcp <;> cases h1 : t.readyRtp <;>
    cases h2 : t.readyRtcp <;>
    simp [dtlsRtpGet, dtlsRtcpGet, updateTransportState, h, h1, h2]

theorem onHandshakeCompleted_state (t : DtlsTransport) (ctx : CtxPtr) (ck sk prof : String)
    (ok : Bool) :
    (onHandshakeCompleted t ctx ck sk prof ok).state_ =
      if (onHandshakeCompleted t ctx ck sk prof ok).readyRtp = true ∧
          (onHandshakeCompleted t ctx ck sk prof ok).readyRtcp = true then
        TransportState.TRANSPORT_READY
      else if (ctx = CtxPtr.rtp ∨ ctx = dtlsRtcpGet t) ∧ ok = false then
        TransportState.TRANSPORT_FAILED
      else t.state_ := by
  rw [onHandshakeCompleted_readyRtp, onHandshakeCompleted_readyRtcp]
  unfold onHandshakeCompleted
  cases ctx <;> cases ok <;> cases h : t.dtlsRtcp <;> cases h1 : t.readyRtp <;>
    cases h2 : t.readyRtcp <;>
    simp [dtlsRtpGet, dtlsRtcpGet, updateTransportState, h, h1, h2]

theorem handshakeInv_step (rtcp_mux : Bool) (cbs : List HandshakeCb) (t : DtlsTransport)
    (h : HandshakeInv rtcp_mux cbs t) (cb : HandshakeCb) :
    HandshakeInv rtcp_mux (cbs ++ [cb])
      (onHandshakeCompleted t cb.ctx cb.clientKey cb.serverKey cb.srtp_profile cb.keysOk) := by
  obtain ⟨hs, hr, hc, hst⟩ := h
  have hr2 : (onHandshakeCompleted t cb.ctx cb.clientKey cb.serverKey cb.srtp_profile
      cb.keysOk).readyRtp = true ↔ ∃ x ∈ cbs ++ [cb], x.ctx = CtxPtr.rtp ∧ x.keysOk = true := by
    rw [exists_mem_append_singleton, onHandshakeCompleted_readyRtp, ← hr]
    simp
  have hc2 : (onHandshakeCompleted t cb.ctx cb.clientKey cb.serverKey cb.srtp_profile
      cb.keysOk).readyRtcp = true ↔
      if rtcp_mux then ∃ x ∈ cbs ++ [cb],
        x.ctx = CtxPtr.rtp ∨ (x.ctx = CtxPtr.null ∧ x.keysOk = true)
      else ∃ x ∈ cbs ++ [cb], x.ctx = CtxPtr.rtcp ∧ x.keysOk = true := by
    rw [onHandshakeCompleted_readyRtcp]
    cases rtcp_mux
    · simp only [Bool.false_eq_true, if_false] at hc ⊢
      rw [exists_mem_append_singleton, ← hc]
      cases hd : t.dtlsRtcp with
      | none => simp [hd] at hs
      | some d => simp [dtlsRtcpGet, hd]
    · simp only [if_true] at hc ⊢
      rw [exists_mem_append_singleton, ← hc]
      cases hd : t.dtlsRtcp with
      | none => simp [dtlsRtcpGet, hd, or_assoc]
      | some d => simp [hd] at hs
  refine ⟨?_, hr2, hc2, ?_⟩
  · rw [onHandshakeCompleted_dtlsRtcp]
    exact hs
  · rw [onHandshakeCompleted_state]
    by_cases hb : (onHandshakeCompleted t cb.ctx cb.clientKey cb.serverKey cb.srtp_profile
        cb.keysOk).readyRtp = true ∧ (onHandshakeCompleted t cb.ctx cb.clientKey cb.serverKey
        cb.srtp_profile cb.keysOk).readyRtcp = true
    · simp [hb]
    · rw [if_neg hb]
      constructor
      · intro hready
        exfalso
        apply hb
        split at hready
        · cases hready
        · have := (hst.mp hready)
          rw [onHandshakeCompleted_readyRtp, onHandshakeCompleted_readyRtcp]
          simp [this.2.1, this.2.2]
      · intro hh
        exact absurd hh.2 hb

theorem handshakeInv_run (bundle rtcp_mux : Bool) (cbs : List HandshakeCb) :
    HandshakeInv rtcp_mux cbs (runHandshakes (DtlsTransport.new bundle rtcp_mux) cbs) := by
  induction cbs using List.reverseRecOn with
  | nil => exact handshakeInv_new bundle rtcp_mux
  | append_singleton xs x ih =>
    rw [runHandshakes_append]
    exact handshakeInv_step rtcp_mux xs _ ih x

/-- C1: starting from a freshly constructed transport, after any finite
sequence of handshake-completion callbacks (any session pointer, any key-setup
outcome, any order) the transport state is READY if and only if the RTP session
has had a successful completion callback and, when RTCP is not muxed, the RTCP
session has had one too. -/
theorem ready_iff_required_components_keyed (bundle rtcp_mux : Bool) (cbs : List HandshakeCb) :
    (runHandshakes (DtlsTransport.new bundle rtcp_mux) cbs).state_ =
        TransportState.TRANSPORT_READY ↔
      ((∃ cb ∈ cbs, cb.ctx = CtxPtr.rtp ∧ cb.keysOk = true) ∧
        (rtcp_mux = false → ∃ cb ∈ cbs, cb.ctx = CtxPtr.rtcp ∧ cb.keysOk = true)) := by
  obtain ⟨_, hr, hc, hst⟩ := handshakeInv_run bundle rtcp_mux cbs
  rw [hst, hr, hc]
  cases rtcp_mux
  · simp only [Bool.false_eq_true, if_false, forall_true_left]
    constructor
    · rintro ⟨_, h1, h2⟩
      exact ⟨h1, h2⟩
    · rintro ⟨⟨x, hx, h1⟩, h2⟩
      exact ⟨List.ne_nil_of_mem hx, ⟨x, hx, h1⟩, h2⟩
  · simp only [if_true]
    constructor
    · rintro ⟨_, h1, _⟩
      exact ⟨h1, fun h => absurd h (by decide)⟩
    · rintro ⟨⟨x, hx, h1⟩, _⟩
      exact ⟨List.ne_nil_of_mem hx, ⟨x, hx, h1⟩, ⟨x, hx, Or.inl h1.1⟩⟩

/-! ## Frame lemmas: what packet processing leaves alone -/

theorem frame_refl (t : DtlsTransport) : Frame t t :=
  ⟨rfl, rfl, rfl, rfl, rfl, rfl, rfl, rfl, rfl, rfl, rfl⟩

theorem frame_trans {t1 t2 t3 : DtlsTransport} (h1 : Frame t1 t2) (h2 : Frame t2 t3) :
    Frame t1 t3 :=
  ⟨h2.state_.trans h1.state_, h2.rtcp_mux_.trans h1.rtcp_mux_, h2.bundle_.trans h1.bundle_,
    h2.readyRtp.trans h1.readyRtp, h2.readyRtcp.trans h1.readyRtcp,
    h2.running_.trans h1.running_, h2.dtlsRtp.trans h1.dtlsRtp, h2.dtlsRtcp.trans h1.dtlsRtcp,
    h2.srtp_.trans h1.srtp_, h2.srtcp_.trans h1.srtcp_, h2.nice_.trans h1.nice_⟩

theorem frame_logCall (t : DtlsTransport) (c : Call) : Frame t (logCall t c) :=
  ⟨rfl, rfl, rfl, rfl, rfl, rfl, rfl, rfl, rfl, rfl, rfl⟩

theorem frame_cancelRtpResender (t : DtlsTransport) : Frame t (cancelRtpResender t) := by
  unfold cancelRtpResender
  split
  · exact frame_refl t
  · exact ⟨rfl, rfl, rfl, rfl, rfl, rfl, rfl, rfl, rfl, rfl, rfl⟩

theorem frame_cancelRtcpResender (t : DtlsTransport) : Frame t (cancelRtcpResender t) := by
  unfold cancelRtcpResender
  split
  · exact frame_refl t
  · exact ⟨rfl, rfl, rfl, rfl, rfl, rfl, rfl, rfl, rfl, rfl, rfl⟩

theorem frame_writeTail (t : DtlsTransport) (comp : Nat) (buf : Bytes) (length : Int)
    (ice2 : IceState) : Frame t (writeTail t comp buf length ice2) := by
  unfold writeTail writeOnNice
  split_ifs
  · exact frame_refl t
  · exact frame_logCall t _
  · exact frame_refl t

theorem onNiceData_dtls_rtp (fns : PacketFns) (t : DtlsTransport) (component_id : Nat)
    (data : Bytes) (len : Int) (res : SrtpResult) (h1 : isDtlsPacket fns data len = true)
    (h2 : component_id = 1) :
    onNiceData fns t component_id data len res =
      Except.ok (logCall (cancelRtpResender t) (Call.dtlsRead Comp.rtp data len)) := by
  simp [onNiceData, h1, h2]

theorem onNiceData_dtls_rtcp (fns : PacketFns) (t : DtlsTransport) (component_id : Nat)
    (data : Bytes) (len : Int) (res : SrtpResult) (h1 : isDtlsPacket fns data len = true)
    (h2 : component_id ≠ 1) :
    onNiceData fns t component_id data len res =
      match (cancelRtcpResender t).dtlsRtcp with
      | none => Except.error Fault.nullDeref
      | some _ => Except.ok (logCall (cancelRtcpResender t) (Call.dtlsRead Comp.rtcp data len)) := by
  simp [onNiceData, h1, h2]

theorem onNiceData_media_notReady (fns : PacketFns) (t : DtlsTransport) (component_id : Nat)
    (data : Bytes) (len : Int) (res : SrtpResult) (h1 : isDtlsPacket fns data len = false)
    (h2 : t.state_ ≠ TransportState.TRANSPORT_READY) :
    onNiceData fns t component_id data len res = Except.ok t := by
  simp [onNiceData, h1, getTransportState, h2]

theorem onNiceData_media_eq (fns : PacketFns) (t : DtlsTransport) (component_id : Nat)
    (data : Bytes) (len : Int) (res : SrtpResult) (h1 : isDtlsPacket fns data len = false)
    (h2 : t.state_ = TransportState.TRANSPORT_READY) :
    onNiceData fns t component_id data len res =
      Except.ok
        (onNiceDataMedia fns (setUnprotectBuf t (memcpy t.unprotectBuf_ data len)) component_id
          len res) := by
  simp [onNiceData, h1, getTransportState, h2]

theorem onNiceDataMedia_noChannel (fns : PacketFns) (t : DtlsTransport) (component_id : Nat)
    (len : Int) (res : SrtpResult) (h3 : (onNiceDataChannel t component_id).2 = none) :
    onNiceDataMedia fns t component_id len res = t := by
  unfold onNiceDataMedia
  rcases hx : onNiceDataChannel t component_id with ⟨c, _ | srtp⟩
  · rfl
  · rw [hx] at h3
    cases h3

theorem onNiceDataMedia_ready (fns : PacketFns) (t : DtlsTransport) (component_id : Nat)
    (len : Int) (res : SrtpResult) (c : Comp) (srtp : SrtpChannel)
    (h3 : onNiceDataChannel t component_id = (c, some srtp)) :
    onNiceDataMedia fns t component_id len res =
      if res.ret < 0 ∨ res.length ≤ 0 then
        setUnprotectBuf (logCall t (unprotectCall fns c srtp t.unprotectBuf_ len)) res.buf
      else
        logCall
          (setUnprotectBuf (logCall t (unprotectCall fns c srtp t.unprotectBuf_ len)) res.buf)
          (Call.onTransportData res.buf res.length) := by
  unfold onNiceDataMedia
  rw [h3]
  simp only [unprotectCall]
  by_cases hr : res.ret < 0
  · by_cases hc : fns.isRtcp t.unprotectBuf_ = true <;> simp [hr, hc]
  · by_cases hl : res.length ≤ 0
    · by_cases hc : fns.isRtcp t.unprotectBuf_ = true <;> simp [hr, hl, hc]
    · by_cases hc : fns.isRtcp t.unprotectBuf_ = true <;> simp [hr, hl, hc, setUnprotectBuf]

theorem frame_setUnprotectBuf (t : DtlsTransport) (buf : Bytes) :
    Frame t (setUnprotectBuf t buf) :=
  ⟨rfl, rfl, rfl, rfl, rfl, rfl, rfl, rfl, rfl, rfl, rfl⟩

theorem frame_setProtectBuf (t : DtlsTransport) (buf : Bytes) :
    Frame t (setProtectBuf t buf) :=
  ⟨rfl, rfl, rfl, rfl, rfl, rfl, rfl, rfl, rfl, rfl, rfl⟩

theorem frame_onNiceDataMedia (fns : PacketFns) (t : DtlsTransport) (component_id : Nat)
    (len : Int) (res : SrtpResult) : Frame t (onNiceDataMedia fns t component_id len res) := by
  rcases h3 : onNiceDataChannel t component_id with ⟨c, _ | srtp⟩
  · rw [onNiceDataMedia_noChannel fns t component_id len res (by rw [h3])]
    exact frame_refl t
  · rw [onNiceDataMedia_ready fns t component_id len res c srtp h3]
    have k : Frame t
        (setUnprotectBuf (logCall t (unprotectCall fns c srtp t.unprotectBuf_ len)) res.buf) :=
      frame_trans (frame_logCall _ _) (frame_setUnprotectBuf _ _)
    split_ifs
    · exact k
    · exact frame_trans k (frame_logCall _ _)

theorem onNiceData_frame (fns : PacketFns) (t t2 : DtlsTransport) (component_id : Nat)
    (data : Bytes) (len : Int) (res : SrtpResult)
    (h : onNiceData fns t component_id data len res = Except.ok t2) : Frame t t2 := by
  cases h1 : isDtlsPacket fns data len with
  | true =>
    by_cases h2 : component_id = 1
    · rw [onNiceData_dtls_rtp fns t component_id data len res h1 h2] at h
      cases h
      exact frame_trans (frame_cancelRtpResender t) (frame_logCall _ _)
    · rw [onNiceData_dtls_rtcp fns t component_id data len res h1 h2] at h
      split at h
      · cases h
      · cases h
        exact frame_trans (frame_cancelRtcpResender t) (frame_logCall _ _)
  | false =>
    by_cases h2 : t.state_ = TransportState.TRANSPORT_READY
    · rw [onNiceData_media_eq fns t component_id data len res h1 h2] at h
      cases h
      exact frame_trans (frame_setUnprotectBuf t _) (frame_onNiceDataMedia fns _ _ _ _)
    · rw [onNiceData_media_notReady fns t component_id data len res h1 h2] at h
      cases h
      exact frame_refl t

theorem write_noNice (fns : PacketFns) (t : DtlsTransport) (data : Bytes) (len : Int)
    (ice1 ice2 : IceState) (res : SrtpResult) (h : t.nice_ = none) :
    write fns t data len ice1 ice2 res = t := by
  simp [write, h]

theorem write_notReady (fns : PacketFns) (t : DtlsTransport) (data : Bytes) (len : Int)
    (ice1 ice2 : IceState) (res : SrtpResult)
    (h : t.state_ ≠ TransportState.TRANSPORT_READY) :
    write fns t data len ice1 ice2 res = t := by
  unfold write
  split
  · rfl
  · simp [getTransportState, h]

theorem write_ready (fns : PacketFns) (t : DtlsTransport) (data : Bytes) (len : Int)
    (ice1 ice2 : IceState) (res : SrtpResult) (n : NiceConnection) (hn : t.nice_ = some n)
    (h : t.state_ = TransportState.TRANSPORT_READY) :
    write fns t data len ice1 ice2 res =
      writeReady fns (setProtectBuf t (memcpy t.protectBuf_ data len)) len ice1 ice2 res := by
  simp [write, hn, getTransportState, h]

theorem writeReady_eq (fns : PacketFns) (t : DtlsTransport) (len : Int)
    (ice1 ice2 : IceState) (res : SrtpResult) :
    writeReady fns t len ice1 ice2 res =
      match writeChannel fns t t.protectBuf_ with
      | (c, some srtp) =>
        if ice1 = IceState.NICE_READY then
          if res.ret < 0 then
            setProtectBuf (logCall t (protectCall fns c srtp t.protectBuf_ len)) res.buf
          else
            writeTail
              (setProtectBuf (logCall t (protectCall fns c srtp t.protectBuf_ len)) res.buf)
              (writeComp fns t t.protectBuf_) res.buf res.length ice2
        else writeTail t (writeComp fns t t.protectBuf_) t.protectBuf_ len ice2
      | (_, none) => writeTail t (writeComp fns t t.protectBuf_) t.protectBuf_ len ice2 := by
  unfold writeReady
  simp only [writeChannel, writeComp, protectCall]
  cases hc : fns.isRtcp t.protectBuf_ <;> cases hm : t.rtcp_mux_ <;>
    cases hd : t.dtlsRtcp <;> cases hs : t.srtp_ <;> cases hs2 : t.srtcp_ <;>
    simp [setProtectBuf]

theorem frame_writeReady (fns : PacketFns) (t : DtlsTransport) (len : Int)
    (ice1 ice2 : IceState) (res : SrtpResult) :
    Frame t (writeReady fns t len ice1 ice2 res) := by
  rw [writeReady_eq]
  split
  · rename_i c srtp _
    have k : Frame t
        (setProtectBuf (logCall t (protectCall fns c srtp t.protectBuf_ len)) res.buf) :=
      frame_trans (frame_logCall _ _) (frame_setProtectBuf _ _)
    split_ifs
    · exact k
    · exact frame_trans k (frame_writeTail _ _ _ _ _)
    · exact frame_writeTail _ _ _ _ _
  · exact frame_writeTail _ _ _ _ _

theorem write_frame (fns : PacketFns) (t : DtlsTransport) (data : Bytes) (len : Int)
    (ice1 ice2 : IceState) (res : SrtpResult) :
    Frame t (write fns t data len ice1 ice2 res) := by
  cases hn : t.nice_ with
  | none =>
    rw [write_noNice fns t data len ice1 ice2 res hn]
    exact frame_refl t
  | some n =>
    by_cases h : t.state_ = TransportState.TRANSPORT_READY
    · rw [write_ready fns t data len ice1 ice2 res n hn h]
      exact frame_trans (frame_setProtectBuf t _) (frame_writeReady fns _ _ _ _ _)
    · rw [write_notReady fns t data len ice1 ice2 res h]
      exact frame_refl t

theorem writeDtls_frame (t t2 : DtlsTransport) (ctx : CtxPtr) (data : Bytes) (len : Nat)
    (h : writeDtls t ctx data len = Except.ok t2) : Frame t t2 := by
  unfold writeDtls at h
  simp only at h
  split at h
  · cases h
  · cases h
    split_ifs
    · exact ⟨rfl, rfl, rfl, rfl, rfl, rfl, rfl, rfl, rfl, rfl, rfl⟩
    · exact ⟨rfl, rfl, rfl, rfl, rfl, rfl, rfl, rfl, rfl, rfl, rfl⟩

theorem keyFrame_refl (t : DtlsTransport) : KeyFrame t t :=
  ⟨rfl, rfl, rfl, rfl, rfl, rfl, rfl, rfl⟩

theorem keyFrame_trans {t1 t2 t3 : DtlsTransport} (h1 : KeyFrame t1 t2) (h2 : KeyFrame t2 t3) :
    KeyFrame t1 t3 :=
  ⟨h2.state_.trans h1.state_, h2.rtcp_mux_.trans h1.rtcp_mux_, h2.readyRtp.trans h1.readyRtp,
    h2.readyRtcp.trans h1.readyRtcp, h2.dtlsRtcp.trans h1.dtlsRtcp, h2.srtp_.trans h1.srtp_,
    h2.srtcp_.trans h1.srtcp_, h2.nice_.trans h1.nice_⟩

theorem frame_toKeyFrame {t1 t2 : DtlsTransport} (h : Frame t1 t2) : KeyFrame t1 t2 :=
  ⟨h.state_, h.rtcp_mux_, h.readyRtp, h.readyRtcp, by rw [h.dtlsRtcp], h.srtp_, h.srtcp_, h.nice_⟩

theorem keyFrame_startDtlsRtp (t : DtlsTransport) : KeyFrame t (startDtlsRtp t) :=
  ⟨rfl, rfl, rfl, rfl, rfl, rfl, rfl, rfl⟩

theorem keyFrame_startDtlsRtcp (t : DtlsTransport) (s : DtlsSocketContext)
    (h : t.dtlsRtcp = some s) : KeyFrame t (startDtlsRtcp t s) :=
  ⟨rfl, rfl, rfl, rfl, by simp [startDtlsRtcp, logCall, h], rfl, rfl, rfl⟩

theorem restartRtp_keyFrame (t t2 : DtlsTransport) (h : restartRtp t = Except.ok t2) :
    KeyFrame t t2 := by
  unfold restartRtp at h
  split at h
  · cases h
    exact keyFrame_startDtlsRtp t
  · split at h
    · cases h
    · split at h
      · cases h
        exact keyFrame_startDtlsRtp t
      · cases h
        exact keyFrame_refl t

theorem restartRtcp_keyFrame (t t2 : DtlsTransport) (h : restartRtcp t = Except.ok t2) :
    KeyFrame t t2 := by
  unfold restartRtcp at h
  split at h
  · cases h
    exact keyFrame_refl t
  · rename_i s hs
    split at h
    · cases h
      exact keyFrame_startDtlsRtcp t s hs
    · split at h
      · cases h
      · split at h
        · cases h
          exact keyFrame_startDtlsRtcp t s hs
        · cases h
          exact keyFrame_refl t

theorem updateIceState_fields (t t2 : DtlsTransport) (s : IceState)
    (h : updateIceState t s = Except.ok t2) :
    t2.state_ = stateAfterIce s t.state_ ∧ t2.srtp_ = t.srtp_ ∧ t2.srtcp_ = t.srtcp_ ∧
      t2.readyRtp = t.readyRtp ∧ t2.readyRtcp = t.readyRtcp ∧
      t2.dtlsRtcp.isSome = t.dtlsRtcp.isSome ∧ t2.nice_ = t.nice_ ∧
      t2.rtcp_mux_ = t.rtcp_mux_ := by
  unfold updateIceState at h
  cases s
  case NICE_INITIAL =>
    by_cases hs : t.state_ = TransportState.TRANSPORT_STARTED <;>
      simp [getTransportState, updateTransportState, hs] at h <;> subst h <;>
      simp [stateAfterIce, hs]
  case NICE_FAILED =>
    simp [getTransportState, updateTransportState] at h
    subst h
    simp [stateAfterIce]
  case NICE_READY =>
    simp only [reduceCtorEq, false_and, if_false, if_true] at h
    split at h
    · cases h
    · rename_i t3 h3
      have k := keyFrame_trans (restartRtp_keyFrame t t3 h3) (restartRtcp_keyFrame t3 t2 h)
      exact ⟨k.state_, k.srtp_, k.srtcp_, k.readyRtp, k.readyRtcp, k.dtlsRtcp, k.nice_,
        k.rtcp_mux_⟩
  all_goals
    simp [getTransportState, updateTransportState] at h
    subst h
    simp [stateAfterIce]

theorem updateIceState_returns (t : DtlsTransport) (s : IceState)
    (hs : s ≠ IceState.NICE_READY) : ∃ t2, updateIceState t s = Except.ok t2 := by
  unfold updateIceState
  simp [hs]

/-! ## Calls made by one member function -/

theorem callsMade_self (t : DtlsTransport) : callsMade t t = [] := by
  simp [callsMade]

theorem callsMade_of_append (t t2 : DtlsTransport) (xs : List Call)
    (h : t2.calls = t.calls ++ xs) : callsMade t t2 = xs := by
  simp [callsMade, h]

theorem cancelRtpResender_calls (t : DtlsTransport) :
    (cancelRtpResender t).calls =
      t.calls ++ (if t.rtpResender.isSome then [Call.resenderCancel Comp.rtp] else []) := by
  unfold cancelRtpResender
  cases h : t.rtpResender <;> simp [logCall]

theorem cancelRtcpResender_calls (t : DtlsTransport) :
    (cancelRtcpResender t).calls =
      t.calls ++ (if t.rtcpResender.isSome then [Call.resenderCancel Comp.rtcp] else []) := by
  unfold cancelRtcpResender
  cases h : t.rtcpResender <;> simp [logCall]

theorem cancelRtpResender_resenders (t : DtlsTransport) :
    (cancelRtpResender t).rtpResender = t.rtpResender.map Resender.cancel ∧
      (cancelRtpResender t).rtcpResender = t.rtcpResender := by
  unfold cancelRtpResender
  cases h : t.rtpResender <;> simp [logCall, h]

theorem cancelRtcpResender_resenders (t : DtlsTransport) :
    (cancelRtcpResender t).rtcpResender = t.rtcpResender.map Resender.cancel ∧
      (cancelRtcpResender t).rtpResender = t.rtpResender := by
  unfold cancelRtcpResender
  cases h : t.rtcpResender <;> simp [logCall, h]

theorem writeDtls_calls (t t2 : DtlsTransport) (ctx : CtxPtr) (data : Bytes) (len : Nat)
    (h : writeDtls t ctx data len = Except.ok t2) :
    t2.calls = t.calls ++
      (if ctx = dtlsRtcpGet t then
        [Call.resenderStart Comp.rtcp 2 data len, Call.sendData 2 data len]
      else [Call.resenderStart Comp.rtp 1 data len, Call.sendData 1 data len]) := by
  unfold writeDtls at h
  simp only at h
  split at h
  · cases h
  · cases h
    by_cases hc : ctx = dtlsRtcpGet t <;> simp [hc, logCall]

theorem writeDtls_returns (t : DtlsTransport) (ctx : CtxPtr) (data : Bytes) (len : Nat)
    (n : NiceConnection) (hn : t.nice_ = some n) :
    ∃ t2, writeDtls t ctx data len = Except.ok t2 := by
  unfold writeDtls
  by_cases hc : ctx = dtlsRtcpGet t <;> simp [hc, logCall, hn]

theorem onHandshakeCompleted_calls (t : DtlsTransport) (ctx : CtxPtr) (ck sk prof : String)
    (ok : Bool) : (onHandshakeCompleted t ctx ck sk prof ok).calls = t.calls := by
  unfold onHandshakeCompleted
  cases ctx <;> cases ok <;> cases h : t.dtlsRtcp <;> cases h1 : t.readyRtp <;>
    cases h2 : t.readyRtcp <;>
    simp [dtlsRtpGet, dtlsRtcpGet, updateTransportState, h, h1, h2]

theorem onHandshakeCompleted_srtp (t : DtlsTransport) (ctx : CtxPtr) (ck sk prof : String)
    (ok : Bool) :
    (onHandshakeCompleted t ctx ck sk prof ok).srtp_ =
      if ctx = CtxPtr.rtp then some { clientKey := ck, serverKey := sk, keysSet := ok }
      else t.srtp_ := by
  unfold onHandshakeCompleted
  cases ctx <;> cases ok <;> cases h : t.dtlsRtcp <;> cases h1 : t.readyRtp <;>
    cases h2 : t.readyRtcp <;>
    simp [dtlsRtpGet, dtlsRtcpGet, updateTransportState, h, h1, h2]

theorem onHandshakeCompleted_srtcp (t : DtlsTransport) (ctx : CtxPtr) (ck sk prof : String)
    (ok : Bool) :
    (onHandshakeCompleted t ctx ck sk prof ok).srtcp_ =
      if ctx = dtlsRtcpGet t then some { clientKey := ck, serverKey := sk, keysSet := ok }
      else t.srtcp_ := by
  unfold onHandshakeCompleted
  cases ctx <;> cases ok <;> cases h : t.dtlsRtcp <;> cases h1 : t.readyRtp <;>
    cases h2 : t.readyRtcp <;>
    simp [dtlsRtpGet, dtlsRtcpGet, updateTransportState, h, h1, h2]

theorem restartRtp_calls (t t2 : DtlsTransport) (h : restartRtp t = Except.ok t2) :
    t2.calls = t.calls ∨ t2.calls = t.calls ++ [Call.dtlsStart Comp.rtp] := by
  unfold restartRtp at h
  split at h
  · cases h
    exact Or.inr rfl
  · split at h
    · cases h
    · split at h
      · cases h
        exact Or.inr rfl
      · cases h
        exact Or.inl rfl

theorem restartRtcp_calls (t t2 : DtlsTransport) (h : restartRtcp t = Except.ok t2) :
    t2.calls = t.calls ∨ t2.calls = t.calls ++ [Call.dtlsStart Comp.rtcp] := by
  unfold restartRtcp at h
  split at h
  · cases h
    exact Or.inl rfl
  · split at h
    · cases h
      exact Or.inr rfl
    · split at h
      · cases h
      · split at h
        · cases h
          exact Or.inr rfl
        · cases h
          exact Or.inl rfl

theorem updateIceState_calls (t t2 : DtlsTransport) (s : IceState)
    (h : updateIceState t s = Except.ok t2) :
    ∃ xs, t2.calls = t.calls ++ xs ∧
      ∀ c ∈ xs, c = Call.dtlsStart Comp.rtp ∨ c = Call.dtlsStart Comp.rtcp := by
  unfold updateIceState at h
  by_cases hs : s = IceState.NICE_READY
  · subst hs
    simp only [reduceCtorEq, false_and, if_false, if_true] at h
    split at h
    · cases h
    · rename_i t3 h3
      rcases restartRtp_calls t t3 h3 with h1 | h1 <;>
        rcases restartRtcp_calls t3 t2 h with h2 | h2
      · exact ⟨[], by simp [h1, h2], by simp⟩
      · exact ⟨[Call.dtlsStart Comp.rtcp], by simp [h1, h2], by simp⟩
      · exact ⟨[Call.dtlsStart Comp.rtp], by simp [h1, h2], by simp⟩
      · exact ⟨[Call.dtlsStart Comp.rtp, Call.dtlsStart Comp.rtcp], by simp [h1, h2], by simp⟩
  · simp only [hs, if_false] at h
    cases h
    refine ⟨[], ?_, by simp⟩
    by_cases h1 : s = IceState.NICE_INITIAL ∧
        getTransportState t ≠ TransportState.TRANSPORT_STARTED <;>
      by_cases h2 : s = IceState.NICE_FAILED <;>
      simp [h1, h2, updateTransportState]

/-! ## Key-setup failure -/

theorem onHandshakeCompleted_keyFailure (t : DtlsTransport) (ctx : CtxPtr) (ck sk prof : String)
    (h : (ctx = CtxPtr.rtp ∧ t.readyRtp = false) ∨
      (ctx = dtlsRtcpGet t ∧ t.readyRtcp = false)) :
    (onHandshakeCompleted t ctx ck sk prof false).state_ = TransportState.TRANSPORT_FAILED := by
  unfold onHandshakeCompleted
  cases ctx <;> cases hd : t.dtlsRtcp <;> cases h1 : t.readyRtp <;> cases h2 : t.readyRtcp <;>
    simp [dtlsRtpGet, dtlsRtcpGet, updateTransportState, hd, h1, h2] at h ⊢

/-- C2 (failing input): on a non-muxed transport that has reached READY, a
further handshake-completion callback for the RTP session whose `setRtpParams`
fails sets FAILED and then, because both readiness flags are still true, READY
again: the call returns with state READY and an RTP channel whose keys were not
set. -/
theorem keyFailure_on_ready_transport_returns_READY :
    readyTransport.state_ = TransportState.TRANSPORT_READY ∧
      (onHandshakeCompleted readyTransport CtxPtr.rtp "bad-client" "bad-server"
        "SRTP_AES128_CM_SHA1_80" false).state_ = TransportState.TRANSPORT_READY := by
  constructor <;> rfl

/-- C6 (failing input): the state reached from construction by a successful
RTP completion, a successful RTCP completion and then an RTP completion whose
key setup fails is READY although the RTP channel it holds has no keys set. -/
theorem ready_with_unkeyed_rtp_channel :
    (runHandshakes (DtlsTransport.new false false)
        [{ ctx := CtxPtr.rtp, clientKey := "a", serverKey := "b", srtp_profile := "p",
           keysOk := true },
         { ctx := CtxPtr.rtcp, clientKey := "c", serverKey := "d", srtp_profile := "p",
           keysOk := true },
         { ctx := CtxPtr.rtp, clientKey := "e", serverKey := "f", srtp_profile := "p",
           keysOk := false }]).state_ = TransportState.TRANSPORT_READY ∧
      (runHandshakes (DtlsTransport.new false false)
        [{ ctx := CtxPtr.rtp, clientKey := "a", serverKey := "b", srtp_profile := "p",
           keysOk := true },
         { ctx := CtxPtr.rtcp, clientKey := "c", serverKey := "d", srtp_profile := "p",
           keysOk := true },
         { ctx := CtxPtr.rtp, clientKey := "e", serverKey := "f", srtp_profile := "p",
           keysOk := false }]).srtp_ =
        some { clientKey := "e", serverKey := "f", keysSet := false } := by
  constructor <;> rfl

/-! ## The FAILED state -/

/-- C3 (counterexample): a transport that became FAILED on `NICE_FAILED` is
moved to STARTED by a following `updateIceState(NICE_INITIAL)`. -/
theorem failed_left_on_NICE_INITIAL :
    failedTransport.state_ = TransportState.TRANSPORT_FAILED ∧
      (updateIceState failedTransport IceState.NICE_INITIAL).map (fun t => t.state_) =
        Except.ok TransportState.TRANSPORT_STARTED := by
  constructor <;> rfl

/-- C3 (amended): from state FAILED, `onNiceData`, `write` and `writeDtls`
return with state FAILED; `updateIceState` returns with state FAILED for every
ICE state except `NICE_INITIAL`, for which it returns with state STARTED; and
`onHandshakeCompleted` returns with state FAILED whenever the two readiness
flags are not both true when it returns. -/
theorem failed_kept_outside_restart (fns : PacketFns) (t : DtlsTransport)
    (h : t.state_ = TransportState.TRANSPORT_FAILED) :
    (∀ (component_id : Nat) (data : Bytes) (len : Int) (res : SrtpResult) (t2 : DtlsTransport),
        onNiceData fns t component_id data len res = Except.ok t2 →
          t2.state_ = TransportState.TRANSPORT_FAILED) ∧
      (∀ (data : Bytes) (len : Int) (ice1 ice2 : IceState) (res : SrtpResult),
        (write fns t data len ice1 ice2 res).state_ = TransportState.TRANSPORT_FAILED) ∧
      (∀ (ctx : CtxPtr) (data : Bytes) (len : Nat) (t2 : DtlsTransport),
        writeDtls t ctx data len = Except.ok t2 →
          t2.state_ = TransportState.TRANSPORT_FAILED) ∧
      (∀ (s : IceState) (t2 : DtlsTransport), updateIceState t s = Except.ok t2 →
        t2.state_ = if s = IceState.NICE_INITIAL then TransportState.TRANSPORT_STARTED
          else TransportState.TRANSPORT_FAILED) ∧
      (∀ (ctx : CtxPtr) (ck sk prof : String) (ok : Bool),
        ¬((onHandshakeCompleted t ctx ck sk prof ok).readyRtp = true ∧
            (onHandshakeCompleted t ctx ck sk prof ok).readyRtcp = true) →
          (onHandshakeCompleted t ctx ck sk prof ok).state_ =
            TransportState.TRANSPORT_FAILED) := by
  refine ⟨?_, ?_, ?_, ?_, ?_⟩
  · intro component_id data len res t2 h2
    rw [(onNiceData_frame fns t t2 component_id data len res h2).state_, h]
  · intro data len ice1 ice2 res
    rw [(write_frame fns t data len ice1 ice2 res).state_, h]
  · intro ctx data len t2 h2
    rw [(writeDtls_frame t t2 ctx data len h2).state_, h]
  · intro s t2 h2
    rw [(updateIceState_fields t t2 s h2).1, h]
    cases s <;> simp [stateAfterIce]
  · intro ctx ck sk prof ok hflags
    rw [onHandshakeCompleted_state, if_neg hflags, h]
    simp

/-- Witness for C3 (amended), at the transport whose ICE connection failed
right after construction. -/
theorem failed_kept_outside_restart_witness :
    failedTransport.state_ = TransportState.TRANSPORT_FAILED ∧
      (write sampleFns failedTransport [128, 96, 0, 1] 4 IceState.NICE_READY
          IceState.NICE_READY { ret := 0, length := 14, buf := [1, 2, 3] }).state_ =
        TransportState.TRANSPORT_FAILED ∧
      (onHandshakeCompleted failedTransport CtxPtr.rtp "a" "b" "p" true).state_ =
        TransportState.TRANSPORT_FAILED :=
  ⟨rfl,
    (failed_kept_outside_restart sampleFns failedTransport rfl).2.1 [128, 96, 0, 1] 4
      IceState.NICE_READY IceState.NICE_READY { ret := 0, length := 14, buf := [1, 2, 3] },
    (failed_kept_outside_restart sampleFns failedTransport rfl).2.2.2.2 CtxPtr.rtp "a" "b" "p"
      true (by decide)⟩

theorem onNiceData_dtls_calls (fns : PacketFns) (t t2 : DtlsTransport) (component_id : Nat)
    (data : Bytes) (len : Int) (res : SrtpResult) (h1 : isDtlsPacket fns data len = true)
    (h : onNiceData fns t component_id data len res = Except.ok t2) :
    t2.calls = t.calls ++
      ((if (resenderOf t (dtlsSlot component_id)).isSome then
          [Call.resenderCancel (dtlsSlot component_id)] else []) ++
        [Call.dtlsRead (dtlsSlot component_id) data len]) := by
  by_cases h2 : component_id = 1
  · rw [onNiceData_dtls_rtp fns t component_id data len res h1 h2] at h
    cases h
    simp [logCall, cancelRtpResender_calls, dtlsSlot, h2, resenderOf]
  · rw [onNiceData_dtls_rtcp fns t component_id data len res h1 h2] at h
    split at h
    · cases h
    · cases h
      simp [logCall, cancelRtcpResender_calls, dtlsSlot, h2, resenderOf]

/-- C4 (counterexample): on a transport in state FAILED, `writeDtls` still
sends its datagram to the ICE connection, and a DTLS-classified datagram given
to `onNiceData` is still handed to the DTLS session. -/
theorem failed_transport_still_sends_and_reads_dtls :
    failedTransport.state_ = TransportState.TRANSPORT_FAILED ∧
      (writeDtls failedTransport CtxPtr.rtp [22, 254, 255] 3).map
          (fun t => callsMade failedTransport t) =
        Except.ok [Call.resenderStart Comp.rtp 1 [22, 254, 255] 3,
          Call.sendData 1 [22, 254, 255] 3] ∧
      (onNiceData sampleFns failedTransport 1 [22, 254, 255] 3
          { ret := 0, length := 0, buf := [] }).map (fun t => callsMade failedTransport t) =
        Except.ok [Call.dtlsRead Comp.rtp [22, 254, 255] 3] := by
  refine ⟨rfl, rfl, rfl⟩

/-- C4 (amended): once the state is FAILED, `onNiceData` on a datagram that
is not classified as DTLS and `write` are no-ops, and `onHandshakeCompleted`
and `updateIceState` make no `sendData`, `onTransportData` or DTLS `read` call.
A DTLS-classified datagram is still handed to its component's DTLS session
(after the cancel of that component's Resender, and with nothing sent down or
delivered up), and `writeDtls` still arms a Resender and sends its datagram once
through the ICE connection. -/
theorem failed_drops_media_only (fns : PacketFns) (t : DtlsTransport)
    (h : t.state_ = TransportState.TRANSPORT_FAILED) :
    (∀ (component_id : Nat) (data : Bytes) (len : Int) (res : SrtpResult),
        isDtlsPacket fns data len = false →
          onNiceData fns t component_id data len res = Except.ok t) ∧
      (∀ (data : Bytes) (len : Int) (ice1 ice2 : IceState) (res : SrtpResult),
        write fns t data len ice1 ice2 res = t) ∧
      (∀ (ctx : CtxPtr) (ck sk prof : String) (ok : Bool),
        callsMade t (onHandshakeCompleted t ctx ck sk prof ok) = []) ∧
      (∀ (s : IceState) (t2 : DtlsTransport), updateIceState t s = Except.ok t2 →
        ∀ c ∈ callsMade t t2,
          c.isSendData = false ∧ c.isOnTransportData = false ∧ c.isDtlsRead = false) ∧
      (∀ (component_id : Nat) (data : Bytes) (len : Int) (res : SrtpResult)
        (t2 : DtlsTransport), isDtlsPacket fns data len = true →
          onNiceData fns t component_id data len res = Except.ok t2 →
            callsMade t t2 =
              (if (resenderOf t (dtlsSlot component_id)).isSome then
                [Call.resenderCancel (dtlsSlot component_id)] else []) ++
                [Call.dtlsRead (dtlsSlot component_id) data len]) ∧
      (∀ (ctx : CtxPtr) (data : Bytes) (len : Nat) (t2 : DtlsTransport),
        writeDtls t ctx data len = Except.ok t2 →
          callsMade t t2 =
            if ctx = dtlsRtcpGet t then
              [Call.resenderStart Comp.rtcp 2 data len, Call.sendData 2 data len]
            else [Call.resenderStart Comp.rtp 1 data len, Call.sendData 1 data len]) := by
  have hne : t.state_ ≠ TransportState.TRANSPORT_READY := by
    rw [h]
    decide
  refine ⟨?_, ?_, ?_, ?_, ?_, ?_⟩
  · intro component_id data len res hd
    exact onNiceData_media_notReady fns t component_id data len res hd hne
  · intro data len ice1 ice2 res
    exact write_notReady fns t data len ice1 ice2 res hne
  · intro ctx ck sk prof ok
    exact callsMade_of_append t _ [] (by rw [onHandshakeCompleted_calls, List.append_nil])
  · intro s t2 h2 c hc
    obtain ⟨xs, hxs, hall⟩ := updateIceState_calls t t2 s h2
    rw [callsMade_of_append t t2 xs hxs] at hc
    rcases hall c hc with rfl | rfl <;> exact ⟨rfl, rfl, rfl⟩
  · intro component_id data len res t2 hd h2
    exact callsMade_of_append t t2 _ (onNiceData_dtls_calls fns t t2 component_id data len res hd h2)
  · intro ctx data len t2 h2
    exact callsMade_of_append t t2 _ (writeDtls_calls t t2 ctx data len h2)

/-- Witness for C4 (amended), at the transport whose ICE connection failed
right after construction: a media datagram is dropped and a write does
nothing. -/
theorem failed_drops_media_only_witness :
    failedTransport.state_ = TransportState.TRANSPORT_FAILED ∧
      onNiceData sampleFns failedTransport 1 [128, 96, 0, 1] 4
          { ret := 0, length := 4, buf := [1, 2, 3, 4] } = Except.ok failedTransport ∧
      write sampleFns failedTransport [128, 96, 0, 1] 4 IceState.NICE_READY
          IceState.NICE_READY { ret := 0, length := 14, buf := [1, 2, 3] } = failedTransport :=
  ⟨rfl,
    (failed_drops_media_only sampleFns failedTransport rfl).1 1 [128, 96, 0, 1] 4
      { ret := 0, length := 4, buf := [1, 2, 3, 4] } rfl,
    (failed_drops_media_only sampleFns failedTransport rfl).2.1 [128, 96, 0, 1] 4
      IceState.NICE_READY IceState.NICE_READY { ret := 0, length := 14, buf := [1, 2, 3] }⟩

/-! ## Writing before READY -/

/-- C5: when the transport state is not READY, `write` returns the transport
unchanged for every buffer and every pair of ICE-state answers: it records no
call at all, so `sendData` (through `writeOnNice`) is called zero times and
neither `protectRtp` nor `protectRtcp` is called. -/
theorem write_before_ready_sends_nothing (fns : PacketFns) (t : DtlsTransport) (data : Bytes)
    (len : Int) (ice1 ice2 : IceState) (res : SrtpResult)
    (h : t.state_ ≠ TransportState.TRANSPORT_READY) :
    write fns t data len ice1 ice2 res = t ∧
      (∀ c ∈ callsMade t (write fns t data len ice1 ice2 res),
        c.isSendData = false ∧ c.isProtect = false) := by
  rw [write_notReady fns t data len ice1 ice2 res h, callsMade_self]
  exact ⟨rfl, fun c hc => absurd hc (List.not_mem_nil c)⟩

/-- Witness for C5, at a freshly constructed transport (state INITIAL) and
ICE answers `NICE_READY`. -/
theorem write_before_ready_sends_nothing_witness :
    (DtlsTransport.new false false).state_ ≠ TransportState.TRANSPORT_READY ∧
      write sampleFns (DtlsTransport.new false false) [128, 96, 0, 1, 2, 3, 4, 5, 6, 7, 8, 9] 12
          IceState.NICE_READY IceState.NICE_READY { ret := 0, length := 22, buf := [9, 9] } =
        DtlsTransport.new false false :=
  ⟨by decide,
    (write_before_ready_sends_nothing sampleFns (DtlsTransport.new false false)
      [128, 96, 0, 1, 2, 3, 4, 5, 6, 7, 8, 9] 12 IceState.NICE_READY IceState.NICE_READY
      { ret := 0, length := 22, buf := [9, 9] } (by decide)).1⟩

/-! ## Secure Channels -/

/-- C7 (counterexample): on a transport whose RTP channel was created by a
first handshake completion, a second completion callback for the RTP session
replaces the channel by one built from the new keys. -/
theorem srtp_channel_replaced_by_second_completion :
    (onHandshakeCompleted (DtlsTransport.new false false) CtxPtr.rtp "client-1" "server-1"
        "p" true).srtp_ =
        some { clientKey := "client-1", serverKey := "server-1", keysSet := true } ∧
      (onHandshakeCompleted
        (onHandshakeCompleted (DtlsTransport.new false false) CtxPtr.rtp "client-1" "server-1"
          "p" true) CtxPtr.rtp "client-2" "server-2" "p" true).srtp_ =
        some { clientKey := "client-2", serverKey := "server-2", keysSet := true } ∧
      (onHandshakeCompleted
        (onHandshakeCompleted (DtlsTransport.new false false) CtxPtr.rtp "client-1" "server-1"
          "p" true) CtxPtr.rtp "client-2" "server-2" "p" true).srtp_ ≠
        (onHandshakeCompleted (DtlsTransport.new false false) CtxPtr.rtp "client-1" "server-1"
          "p" true).srtp_ := by
  refine ⟨rfl, rfl, ?_⟩
  decide

/-- C7 (amended): `onNiceData`, `write`, `writeDtls` and `updateIceState`
leave both Secure Channels as they were.  `onHandshakeCompleted` for the RTP
session replaces the RTP channel by a new channel holding the keys of that call
and leaves the RTCP channel as it was unless the pointer is also the value of
`dtlsRtcp.get()`; for that value it replaces the RTCP channel in the same way,
and for any other pointer it leaves both channels as they were. -/
theorem channels_replaced_by_handshake_completion_only (fns : PacketFns) (t : DtlsTransport) :
    (∀ (component_id : Nat) (data : Bytes) (len : Int) (res : SrtpResult) (t2 : DtlsTransport),
        onNiceData fns t component_id data len res = Except.ok t2 →
          t2.srtp_ = t.srtp_ ∧ t2.srtcp_ = t.srtcp_) ∧
      (∀ (data : Bytes) (len : Int) (ice1 ice2 : IceState) (res : SrtpResult),
        (write fns t data len ice1 ice2 res).srtp_ = t.srtp_ ∧
          (write fns t data len ice1 ice2 res).srtcp_ = t.srtcp_) ∧
      (∀ (ctx : CtxPtr) (data : Bytes) (len : Nat) (t2 : DtlsTransport),
        writeDtls t ctx data len = Except.ok t2 → t2.srtp_ = t.srtp_ ∧ t2.srtcp_ = t.srtcp_) ∧
      (∀ (s : IceState) (t2 : DtlsTransport), updateIceState t s = Except.ok t2 →
        t2.srtp_ = t.srtp_ ∧ t2.srtcp_ = t.srtcp_) ∧
      (∀ (ctx : CtxPtr) (ck sk prof : String) (ok : Bool),
        (onHandshakeCompleted t ctx ck sk prof ok).srtp_ =
            (if ctx = CtxPtr.rtp then some { clientKey := ck, serverKey := sk, keysSet := ok }
              else t.srtp_) ∧
          (onHandshakeCompleted t ctx ck sk prof ok).srtcp_ =
            (if ctx = dtlsRtcpGet t then
              some { clientKey := ck, serverKey := sk, keysSet := ok }
              else t.srtcp_)) := by
  refine ⟨?_, ?_, ?_, ?_, ?_⟩
  · intro component_id data len res t2 h2
    have k := onNiceData_frame fns t t2 component_id data len res h2
    exact ⟨k.srtp_, k.srtcp_⟩
  · intro data len ice1 ice2 res
    have k := write_frame fns t data len ice1 ice2 res
    exact ⟨k.srtp_, k.srtcp_⟩
  · intro ctx data len t2 h2
    have k := writeDtls_frame t t2 ctx data len h2
    exact ⟨k.srtp_, k.srtcp_⟩
  · intro s t2 h2
    have k := updateIceState_fields t t2 s h2
    exact ⟨k.2.1, k.2.2.1⟩
  · intro ctx ck sk prof ok
    exact ⟨onHandshakeCompleted_srtp t ctx ck sk prof ok,
      onHandshakeCompleted_srtcp t ctx ck sk prof ok⟩

/-- Witness for C7 (amended), at the READY transport: a write leaves the RTP
channel alone and a callback for the RTCP session leaves it alone too. -/
theorem channels_replaced_by_handshake_completion_only_witness :
    (write sampleFns readyTransport [128, 96, 0, 1, 2, 3, 4, 5, 6, 7, 8, 9] 12
          IceState.NICE_READY IceState.NICE_READY
          { ret := 0, length := 22, buf := [9, 9] }).srtp_ = readyTransport.srtp_ ∧
      (onHandshakeCompleted readyTransport CtxPtr.rtcp "client-3" "server-3" "p" true).srtp_ =
        readyTransport.srtp_ :=
  ⟨((channels_replaced_by_handshake_completion_only sampleFns readyTransport).2.1
      [128, 96, 0, 1, 2, 3, 4, 5, 6, 7, 8, 9] 12 IceState.NICE_READY IceState.NICE_READY
      { ret := 0, length := 22, buf := [9, 9] }).1,
    ((channels_replaced_by_handshake_completion_only sampleFns readyTransport).2.2.2.2
      CtxPtr.rtcp "client-3" "server-3" "p" true).1⟩

/-! ## Inbound datagrams -/

theorem onNiceData_dtls_returns (fns : PacketFns) (t : DtlsTransport) (component_id : Nat)
    (data : Bytes) (len : Int) (res : SrtpResult) (h1 : isDtlsPacket fns data len = true)
    (hc : component_id = 1 ∨ t.dtlsRtcp.isSome = true) :
    ∃ t2, onNiceData fns t component_id data len res = Except.ok t2 := by
  by_cases h2 : component_id = 1
  · exact ⟨_, onNiceData_dtls_rtp fns t component_id data len res h1 h2⟩
  · rw [onNiceData_dtls_rtcp fns t component_id data len res h1 h2]
    have hs : t.dtlsRtcp.isSome = true := hc.resolve_left h2
    have hk := (frame_cancelRtcpResender t).dtlsRtcp
    cases hd : (cancelRtcpResender t).dtlsRtcp with
    | none =>
      rw [hd] at hk
      rw [← hk] at hs
      cases hs
    | some d => exact ⟨_, rfl⟩

theorem onNiceData_dtls_resenders (fns : PacketFns) (t t2 : DtlsTransport) (component_id : Nat)
    (data : Bytes) (len : Int) (res : SrtpResult) (h1 : isDtlsPacket fns data len = true)
    (h : onNiceData fns t component_id data len res = Except.ok t2) :
    resenderOf t2 (dtlsSlot component_id) =
        (resenderOf t (dtlsSlot component_id)).map Resender.cancel ∧
      resenderOf t2 (dtlsSlot component_id).other =
        resenderOf t (dtlsSlot component_id).other := by
  by_cases h2 : component_id = 1
  · rw [onNiceData_dtls_rtp fns t component_id data len res h1 h2] at h
    cases h
    have k := cancelRtpResender_resenders t
    simpa [dtlsSlot, h2, resenderOf, Comp.other, logCall] using k
  · rw [onNiceData_dtls_rtcp fns t component_id data len res h1 h2] at h
    split at h
    · cases h
    · cases h
      have k := cancelRtcpResender_resenders t
      simpa [dtlsSlot, h2, resenderOf, Comp.other, logCall] using k

/-- C8: for a datagram classified as DTLS that arrives on a component the
transport has a DTLS session for (component 1, or another component id when the
RTCP session exists), in every transport state, `onNiceData` returns after
making exactly these calls, in this order: `cancel` on that component's
Resender when one exists, then one `read` on that component's DTLS session with
the same bytes and length.  No unprotect call is made and nothing is delivered
to the listener; that component's Resender is the cancelled one, the other
component's Resender is as it was, and the state, flags, sessions and channels
are as they were. -/
theorem dtls_datagram_cancels_then_reads (fns : PacketFns) (t : DtlsTransport)
    (component_id : Nat) (data : Bytes) (len : Int) (res : SrtpResult)
    (hd : isDtlsPacket fns data len = true)
    (hc : component_id = 1 ∨ t.dtlsRtcp.isSome = true) :
    ∃ t2, onNiceData fns t component_id data len res = Except.ok t2 ∧
      callsMade t t2 =
        (if (resenderOf t (dtlsSlot component_id)).isSome then
          [Call.resenderCancel (dtlsSlot component_id)] else []) ++
          [Call.dtlsRead (dtlsSlot component_id) data len] ∧
      resenderOf t2 (dtlsSlot component_id) =
        (resenderOf t (dtlsSlot component_id)).map Resender.cancel ∧
      resenderOf t2 (dtlsSlot component_id).other =
        resenderOf t (dtlsSlot component_id).other ∧
      Frame t t2 := by
  obtain ⟨t2, h2⟩ := onNiceData_dtls_returns fns t component_id data len res hd hc
  exact ⟨t2, h2,
    callsMade_of_append t t2 _ (onNiceData_dtls_calls fns t t2 component_id data len res hd h2),
    (onNiceData_dtls_resenders fns t t2 component_id data len res hd h2).1,
    (onNiceData_dtls_resenders fns t t2 component_id data len res hd h2).2,
    onNiceData_frame fns t t2 component_id data len res h2⟩

/-- Witness for C8: a DTLS record arriving on component 1 of a transport whose
RTP Resender is armed cancels that Resender and is then read by the RTP
session. -/
theorem dtls_datagram_cancels_then_reads_witness :
    isDtlsPacket sampleFns [22, 1, 2] 3 = true ∧
      ∃ t2, onNiceData sampleFns flightSentTransport 1 [22, 1, 2] 3
          { ret := 0, length := 0, buf := [] } = Except.ok t2 ∧
        callsMade flightSentTransport t2 =
          [Call.resenderCancel Comp.rtp, Call.dtlsRead Comp.rtp [22, 1, 2] 3] :=
  ⟨rfl,
    match dtls_datagram_cancels_then_reads sampleFns flightSentTransport 1 [22, 1, 2] 3
      { ret := 0, length := 0, buf := [] } rfl (Or.inl rfl) with
    | ⟨t2, h1, h2, _⟩ => ⟨t2, h1, h2⟩⟩

theorem onNiceDataMedia_calls (fns : PacketFns) (t : DtlsTransport) (component_id : Nat)
    (len : Int) (res : SrtpResult) :
    (onNiceDataMedia fns t component_id len res).calls = t.calls ++
      match onNiceDataChannel t component_id with
      | (c, some srtp) =>
        unprotectCall fns c srtp t.unprotectBuf_ len ::
          (if 0 ≤ res.ret ∧ 0 < res.length then [Call.onTransportData res.buf res.length]
            else [])
      | (_, none) => [] := by
  rcases h3 : onNiceDataChannel t component_id with ⟨c, _ | srtp⟩
  · rw [onNiceDataMedia_noChannel fns t component_id len res (by rw [h3])]
    simp
  · rw [onNiceDataMedia_ready fns t component_id len res c srtp h3]
    by_cases hr : res.ret < 0
    · have hr2 : ¬(0 ≤ res.ret) := not_le.mpr hr
      simp [hr, hr2, logCall, setUnprotectBuf]
    · by_cases hl : res.length ≤ 0
      · have hl2 : ¬(0 < res.length) := not_lt.mpr hl
        simp [hl, hl2, logCall, setUnprotectBuf]
      · have hr2 : 0 ≤ res.ret := not_lt.mp hr
        have hl2 : 0 < res.length := not_le.mp hl
        simp [hr, hl, hr2, hl2, logCall, setUnprotectBuf]

theorem onNiceData_media_calls (fns : PacketFns) (t : DtlsTransport) (component_id : Nat)
    (data : Bytes) (len : Int) (res : SrtpResult) (hd : isDtlsPacket fns data len = false) :
    ∃ t2, onNiceData fns t component_id data len res = Except.ok t2 ∧
      t2.calls = t.calls ++
        (if t.state_ = TransportState.TRANSPORT_READY then
          match onNiceDataChannel t component_id with
          | (c, some srtp) =>
            unprotectCall fns c srtp (memcpy t.unprotectBuf_ data len) len ::
              (if 0 ≤ res.ret ∧ 0 < res.length then [Call.onTransportData res.buf res.length]
                else [])
          | (_, none) => []
        else []) := by
  by_cases h2 : t.state_ = TransportState.TRANSPORT_READY
  · refine ⟨_, onNiceData_media_eq fns t component_id data len res hd h2, ?_⟩
    rw [onNiceDataMedia_calls, if_pos h2]
    rfl
  · refine ⟨t, onNiceData_media_notReady fns t component_id data len res hd h2, ?_⟩
    simp [h2]

theorem unprotectCall_kind (fns : PacketFns) (c : Comp) (srtp : SrtpChannel) (buf : Bytes)
    (len : Int) :
    (unprotectCall fns c srtp buf len).isUnprotect = true ∧
      (unprotectCall fns c srtp buf len).isOnTransportData = false ∧
      (unprotectCall fns c srtp buf len).isDtlsRead = false := by
  unfold unprotectCall
  split <;> exact ⟨rfl, rfl, rfl⟩

theorem onNiceData_media_summary (fns : PacketFns) (t : DtlsTransport)
    (component_id : Nat) (data : Bytes) (len : Int) (res : SrtpResult)
    (hd : isDtlsPacket fns data len = false) :
    ∃ t2, onNiceData fns t component_id data len res = Except.ok t2 ∧
      (callsMade t t2).filter Call.isOnTransportData =
        (if t.state_ = TransportState.TRANSPORT_READY ∧
            (onNiceDataChannel t component_id).2.isSome = true ∧
            0 ≤ res.ret ∧ 0 < res.length then
          [Call.onTransportData res.buf res.length]
        else []) ∧
      (callsMade t t2).filter Call.isUnprotect =
        (if t.state_ = TransportState.TRANSPORT_READY then
          match onNiceDataChannel t component_id with
          | (c, some srtp) =>
            [if fns.isRtcp (memcpy t.unprotectBuf_ data len) = true then
              Call.unprotectRtcp c srtp (memcpy t.unprotectBuf_ data len) len
            else Call.unprotectRtp c srtp (memcpy t.unprotectBuf_ data len) len]
          | (_, none) => []
        else []) ∧
      (callsMade t t2).filter Call.isDtlsRead = [] := by
  obtain ⟨t2, h2, hcalls⟩ := onNiceData_media_calls fns t component_id data len res hd
  refine ⟨t2, h2, ?_⟩
  rw [callsMade_of_append t t2 _ hcalls]
  by_cases hs : t.state_ = TransportState.TRANSPORT_READY
  · rcases h3 : onNiceDataChannel t component_id with ⟨c, _ | srtp⟩
    · simp [hs]
    · have hk := unprotectCall_kind fns c srtp (memcpy t.unprotectBuf_ data len) len
      have hu : (if fns.isRtcp (memcpy t.unprotectBuf_ data len) = true then
            Call.unprotectRtcp c srtp (memcpy t.unprotectBuf_ data len) len
          else Call.unprotectRtp c srtp (memcpy t.unprotectBuf_ data len) len) =
          unprotectCall fns c srtp (memcpy t.unprotectBuf_ data len) len := rfl
      simp only [hs, if_true, true_and, Option.isSome_some]
      rw [hu]
      generalize unprotectCall fns c srtp (memcpy t.unprotectBuf_ data len) len = u at hk ⊢
      by_cases hok : 0 ≤ res.ret ∧ 0 < res.length
      · have e1 : (Call.onTransportData res.buf res.length).isOnTransportData = true := rfl
        have e2 : (Call.onTransportData res.buf res.length).isUnprotect = false := rfl
        have e3 : (Call.onTransportData res.buf res.length).isDtlsRead = false := rfl
        simp only [hok, and_self, if_true, List.filter_cons, List.filter_nil, hk.1, hk.2.1,
          hk.2.2, e1, e2, e3, Bool.false_eq_true, if_false]
      · simp only [hok, if_false, List.filter_cons, List.filter_nil, hk.1, hk.2.1,
          hk.2.2, Bool.false_eq_true, if_true]
        exact ⟨trivial, trivial, trivial⟩
  · simp [hs]

theorem memcpy_take_of_le (dst src : Bytes) (len : Int) (k : Nat) (h1 : k ≤ len.toNat)
    (h2 : k ≤ src.length) :
    (memcpy dst src len).take k = (src.take len.toNat).take k := by
  unfold memcpy
  apply List.take_append_of_le_length
  rw [List.length_take]
  exact le_min h1 h2

theorem isRtcp_memcpy_of_covered (fns : PacketFns) (dst src : Bytes) (len : Int) (k : Nat)
    (hk : ∀ a b : Bytes, a.take k = b.take k → fns.isRtcp a = fns.isRtcp b)
    (h1 : k ≤ len.toNat) (h2 : k ≤ src.length) :
    fns.isRtcp (memcpy dst src len) = fns.isRtcp (src.take len.toNat) :=
  hk _ _ (memcpy_take_of_le dst src len k h1 h2)

/-- C9 (counterexample): on the READY transport whose `unprotectBuf_` still
holds an RTCP record, a one-byte datagram `[129]`, which is not DTLS and whose
own bytes are not an RTCP header, is handed to `unprotectRtcp`: the header test
reads the byte left in the buffer by the previous record. -/
theorem short_datagram_unprotect_follows_previous_record :
    rtcpReceivedTransport.state_ = TransportState.TRANSPORT_READY ∧
      rtcpReceivedTransport.unprotectBuf_ = [128, 200, 9, 9] ∧
      isDtlsPacket sampleFns [129] 1 = false ∧
      sampleFns.isRtcp [129] = false ∧
      (onNiceData sampleFns rtcpReceivedTransport 1 [129] 1
          { ret := 0, length := 1, buf := [5, 200, 9, 9] }).map
          (fun t => callsMade rtcpReceivedTransport t) =
        Except.ok
          [Call.unprotectRtcp Comp.rtp
            { clientKey := "rtp-client", serverKey := "rtp-server", keysSet := true }
            [129, 200, 9, 9] 1,
           Call.onTransportData [5, 200, 9, 9] 1] := by
  refine ⟨rfl, rfl, rfl, rfl, rfl⟩

/-- C9 (amended): for a datagram that is not classified as DTLS, `onNiceData`
returns, and among the calls it makes there is exactly one `onTransportData`,
carrying the buffer and length left by the unprotect call, if the state is
READY, the selected channel exists, the unprotect call did not return a
negative value and the length it left is positive; in every other case there is
none.  When the state is READY and the selected channel exists exactly one
unprotect call is made, and otherwise none; the function is chosen by the
header test on `unprotectBuf_` after the datagram's `len` bytes have been
copied over its start: `unprotectRtcp` when it reports RTCP, `unprotectRtp`
otherwise.  When the datagram covers the bytes the header test reads, that test
is the test on the record's own bytes.  No DTLS session `read` is made in any
case. -/
theorem media_delivered_iff_ready_and_decrypted (fns : PacketFns) (t : DtlsTransport)
    (component_id : Nat) (data : Bytes) (len : Int) (res : SrtpResult)
    (hd : isDtlsPacket fns data len = false) :
    (∃ t2, onNiceData fns t component_id data len res = Except.ok t2 ∧
      (callsMade t t2).filter Call.isOnTransportData =
        (if t.state_ = TransportState.TRANSPORT_READY ∧
            (onNiceDataChannel t component_id).2.isSome = true ∧
            0 ≤ res.ret ∧ 0 < res.length then
          [Call.onTransportData res.buf res.length]
        else []) ∧
      (callsMade t t2).filter Call.isUnprotect =
        (if t.state_ = TransportState.TRANSPORT_READY then
          match onNiceDataChannel t component_id with
          | (c, some srtp) =>
            [if fns.isRtcp (memcpy t.unprotectBuf_ data len) = true then
              Call.unprotectRtcp c srtp (memcpy t.unprotectBuf_ data len) len
            else Call.unprotectRtp c srtp (memcpy t.unprotectBuf_ data len) len]
          | (_, none) => []
        else []) ∧
      (callsMade t t2).filter Call.isDtlsRead = []) ∧
      (∀ k : Nat, (∀ a b : Bytes, a.take k = b.take k → fns.isRtcp a = fns.isRtcp b) →
        k ≤ len.toNat → k ≤ data.length →
          fns.isRtcp (memcpy t.unprotectBuf_ data len) = fns.isRtcp (data.take len.toNat)) :=
  ⟨onNiceData_media_summary fns t component_id data len res hd,
    fun k hk h1 h2 => isRtcp_memcpy_of_covered fns t.unprotectBuf_ data len k hk h1 h2⟩

/-- Witness for C9: on the READY transport an RTP record arriving on component
1 whose unprotect call succeeds with length 4 is delivered once, with the
decrypted buffer. -/
theorem media_delivered_iff_ready_and_decrypted_witness :
    isDtlsPacket sampleFns [128, 96, 0, 1] 4 = false ∧
      ∃ t2, onNiceData sampleFns readyTransport 1 [128, 96, 0, 1] 4
          { ret := 0, length := 4, buf := [7, 7, 7, 7] } = Except.ok t2 ∧
        (callsMade readyTransport t2).filter Call.isOnTransportData =
          [Call.onTransportData [7, 7, 7, 7] 4] :=
  ⟨rfl,
    match (media_delivered_iff_ready_and_decrypted sampleFns readyTransport 1 [128, 96, 0, 1] 4
      { ret := 0, length := 4, buf := [7, 7, 7, 7] } rfl).1 with
    | ⟨t2, h1, h2, _⟩ => ⟨t2, h1, h2⟩⟩

/-- C10 (counterexample): on the non-muxed READY transport, a record with an
RTCP header that arrives on component 1 is unprotected with the RTP channel
(`srtp_`), and a record with an RTP header that arrives on component 2 is
unprotected with the RTCP channel (`srtcp_`). -/
theorem channel_follows_component_not_header :
    readyTransport.state_ = TransportState.TRANSPORT_READY ∧
      readyTransport.rtcp_mux_ = false ∧
      sampleFns.isRtcp [128, 200, 0, 1] = true ∧
      (onNiceData sampleFns readyTransport 1 [128, 200, 0, 1] 4
          { ret := 0, length := 4, buf := [7, 7, 7, 7] }).map
          (fun t => callsMade readyTransport t) =
        Except.ok
          [Call.unprotectRtcp Comp.rtp
            { clientKey := "rtp-client", serverKey := "rtp-server", keysSet := true }
            [128, 200, 0, 1] 4,
           Call.onTransportData [7, 7, 7, 7] 4] ∧
      sampleFns.isRtcp [128, 96, 0, 1] = false ∧
      (onNiceData sampleFns readyTransport 2 [128, 96, 0, 1] 4
          { ret := 0, length := 4, buf := [7, 7, 7, 7] }).map
          (fun t => callsMade readyTransport t) =
        Except.ok
          [Call.unprotectRtp Comp.rtcp
            { clientKey := "rtcp-client", serverKey := "rtcp-server", keysSet := true }
            [128, 96, 0, 1] 4,
           Call.onTransportData [7, 7, 7, 7] 4] := by
  refine ⟨rfl, rfl, rfl, rfl, rfl, rfl⟩

/-- C10 (amended): for every non-DTLS datagram processed in state READY the
channel is chosen by the component the datagram arrived on: the RTCP channel
(`srtcp_`) when it arrived on component 2 and the RTCP session exists, the RTP
channel (`srtp_`) in every other case, so without an RTCP session the RTP
channel serves both kinds of record.  The header test chooses only the
function, and it reads `unprotectBuf_` after the datagram's `len` bytes have
been copied over its start: `unprotectRtcp` when it reports RTCP, `unprotectRtp`
otherwise.  When the datagram covers the bytes the header test reads, that test
is the test on the record's own bytes.  Exactly one unprotect call is made, on
that channel, when the channel exists. -/
theorem unprotect_channel_by_component (fns : PacketFns) (t : DtlsTransport)
    (component_id : Nat) (data : Bytes) (len : Int) (res : SrtpResult)
    (hd : isDtlsPacket fns data len = false)
    (hs : t.state_ = TransportState.TRANSPORT_READY) :
    (∃ t2, onNiceData fns t component_id data len res = Except.ok t2 ∧
      (callsMade t t2).filter Call.isUnprotect =
        if t.dtlsRtcp.isSome = true ∧ component_id = 2 then
          match t.srtcp_ with
          | some srtp =>
            [if fns.isRtcp (memcpy t.unprotectBuf_ data len) = true then
              Call.unprotectRtcp Comp.rtcp srtp (memcpy t.unprotectBuf_ data len) len
            else Call.unprotectRtp Comp.rtcp srtp (memcpy t.unprotectBuf_ data len) len]
          | none => []
        else
          match t.srtp_ with
          | some srtp =>
            [if fns.isRtcp (memcpy t.unprotectBuf_ data len) = true then
              Call.unprotectRtcp Comp.rtp srtp (memcpy t.unprotectBuf_ data len) len
            else Call.unprotectRtp Comp.rtp srtp (memcpy t.unprotectBuf_ data len) len]
          | none => []) ∧
      (∀ k : Nat, (∀ a b : Bytes, a.take k = b.take k → fns.isRtcp a = fns.isRtcp b) →
        k ≤ len.toNat → k ≤ data.length →
          fns.isRtcp (memcpy t.unprotectBuf_ data len) = fns.isRtcp (data.take len.toNat)) := by
  refine ⟨?_, fun k hk h1 h2 =>
    isRtcp_memcpy_of_covered fns t.unprotectBuf_ data len k hk h1 h2⟩
  obtain ⟨t2, h2, _, hu, _⟩ := onNiceData_media_summary fns t component_id data len res hd
  refine ⟨t2, h2, ?_⟩
  rw [hu, if_pos hs]
  unfold onNiceDataChannel
  by_cases hc : t.dtlsRtcp.isSome = true ∧ component_id = 2
  · rw [if_pos hc, if_pos hc]
    cases t.srtcp_ <;> rfl
  · rw [if_neg hc, if_neg hc]
    cases t.srtp_ <;> rfl

/-- Witness for C10 (amended): on the muxed READY transport an RTCP record is
unprotected with `unprotectRtcp` on the RTP channel. -/
theorem unprotect_channel_by_component_witness :
    isDtlsPacket sampleFns [128, 200, 0, 1] 4 = false ∧
      (onHandshakeCompleted (DtlsTransport.new true true) CtxPtr.rtp "k1" "k2" "p" true).state_ =
        TransportState.TRANSPORT_READY ∧
      ∃ t2, onNiceData sampleFns
          (onHandshakeCompleted (DtlsTransport.new true true) CtxPtr.rtp "k1" "k2" "p" true)
          1 [128, 200, 0, 1] 4 { ret := 0, length := 4, buf := [7, 7, 7, 7] } = Except.ok t2 ∧
        (callsMade
          (onHandshakeCompleted (DtlsTransport.new true true) CtxPtr.rtp "k1" "k2" "p" true)
          t2).filter Call.isUnprotect =
          [Call.unprotectRtcp Comp.rtp { clientKey := "k1", serverKey := "k2", keysSet := true }
            [128, 200, 0, 1] 4] :=
  ⟨rfl, rfl,
    (unprotect_channel_by_component sampleFns
      (onHandshakeCompleted (DtlsTransport.new true true) CtxPtr.rtp "k1" "k2" "p" true)
      1 [128, 200, 0, 1] 4 { ret := 0, length := 4, buf := [7, 7, 7, 7] } rfl rfl).1⟩

/-! ## Outbound records -/

theorem writeTail_calls (t : DtlsTransport) (comp : Nat) (buf : Bytes) (length : Int)
    (ice2 : IceState) :
    (writeTail t comp buf length ice2).calls =
      t.calls ++ (if 10 < length ∧ ice2 = IceState.NICE_READY then
        [Call.sendData comp buf length] else []) := by
  unfold writeTail writeOnNice
  by_cases h1 : length ≤ 10
  · have h2 : ¬(10 < length) := not_lt.mpr h1
    simp [h1, h2]
  · have h2 : 10 < length := not_le.mp h1
    by_cases h3 : ice2 = IceState.NICE_READY <;> simp [h1, h2, h3, logCall]

theorem writeReady_calls (fns : PacketFns) (t : DtlsTransport) (len : Int)
    (ice1 ice2 : IceState) (res : SrtpResult) :
    (writeReady fns t len ice1 ice2 res).calls = t.calls ++
      match writeChannel fns t t.protectBuf_ with
      | (c, some srtp) =>
        if ice1 = IceState.NICE_READY then
          protectCall fns c srtp t.protectBuf_ len ::
            (if 0 ≤ res.ret ∧ 10 < res.length ∧ ice2 = IceState.NICE_READY then
              [Call.sendData (writeComp fns t t.protectBuf_) res.buf res.length]
            else [])
        else
          (if 10 < len ∧ ice2 = IceState.NICE_READY then
            [Call.sendData (writeComp fns t t.protectBuf_) t.protectBuf_ len]
          else [])
      | (_, none) =>
        (if 10 < len ∧ ice2 = IceState.NICE_READY then
          [Call.sendData (writeComp fns t t.protectBuf_) t.protectBuf_ len]
        else []) := by
  rw [writeReady_eq]
  rcases hch : writeChannel fns t t.protectBuf_ with ⟨c, _ | srtp⟩
  · simp only [writeTail_calls]
  · simp only
    by_cases hi : ice1 = IceState.NICE_READY
    · simp only [hi, if_true]
      by_cases hr : res.ret < 0
      · have hr2 : ¬(0 ≤ res.ret) := not_le.mpr hr
        simp [hr, hr2, logCall, setProtectBuf]
      · have hr2 : 0 ≤ res.ret := not_lt.mp hr
        simp only [hr, if_false, writeTail_calls, hr2, true_and]
        by_cases hs : 10 < res.length ∧ ice2 = IceState.NICE_READY <;>
          simp [hs, logCall, setProtectBuf]
    · simp only [hi, if_false, writeTail_calls]

theorem write_calls (fns : PacketFns) (t : DtlsTransport) (data : Bytes) (len : Int)
    (ice1 ice2 : IceState) (res : SrtpResult) (n : NiceConnection) (hn : t.nice_ = some n)
    (h : t.state_ = TransportState.TRANSPORT_READY) :
    (write fns t data len ice1 ice2 res).calls = t.calls ++
      match writeChannel fns t (memcpy t.protectBuf_ data len) with
      | (c, some srtp) =>
        if ice1 = IceState.NICE_READY then
          protectCall fns c srtp (memcpy t.protectBuf_ data len) len ::
            (if 0 ≤ res.ret ∧ 10 < res.length ∧ ice2 = IceState.NICE_READY then
              [Call.sendData (writeComp fns t (memcpy t.protectBuf_ data len)) res.buf
                res.length]
            else [])
        else
          (if 10 < len ∧ ice2 = IceState.NICE_READY then
            [Call.sendData (writeComp fns t (memcpy t.protectBuf_ data len))
              (memcpy t.protectBuf_ data len) len]
          else [])
      | (_, none) =>
        (if 10 < len ∧ ice2 = IceState.NICE_READY then
          [Call.sendData (writeComp fns t (memcpy t.protectBuf_ data len))
            (memcpy t.protectBuf_ data len) len]
        else []) := by
  rw [write_ready fns t data len ice1 ice2 res n hn h, writeReady_calls]
  rfl

/-- C11 (failing input): on the non-muxed transport whose two sessions have
completed their handshake with valid keys (state READY), a `write` of a 12-byte
RTP record during which the first `checkIceState` call does not answer
`NICE_READY` and the second one does makes no protect call and hands the
caller's bytes, unchanged, to `sendData`. -/
theorem write_forwards_plaintext_when_ice_turns_ready :
    readyTransport.state_ = TransportState.TRANSPORT_READY ∧
      readyTransport.srtp_ =
        some { clientKey := "rtp-client", serverKey := "rtp-server", keysSet := true } ∧
      callsMade readyTransport
          (write sampleFns readyTransport [128, 96, 0, 1, 2, 3, 4, 5, 6, 7, 8, 9] 12
            IceState.NICE_CANDIDATES_RECEIVED IceState.NICE_READY
            { ret := 0, length := 22, buf := [9, 9] }) =
        [Call.sendData 1 [128, 96, 0, 1, 2, 3, 4, 5, 6, 7, 8, 9] 12] := by
  refine ⟨rfl, rfl, rfl⟩

theorem write_sends (fns : PacketFns) (t : DtlsTransport) (data : Bytes) (len : Int)
    (ice1 ice2 : IceState) (res : SrtpResult) (n : NiceConnection) (hn : t.nice_ = some n)
    (h : t.state_ = TransportState.TRANSPORT_READY) :
    (callsMade t (write fns t data len ice1 ice2 res)).filter Call.isSendData =
      if writeProtects fns t (memcpy t.protectBuf_ data len) ice1 = true then
        (if 0 ≤ res.ret ∧ 10 < res.length ∧ ice2 = IceState.NICE_READY then
          [Call.sendData (writeComp fns t (memcpy t.protectBuf_ data len)) res.buf res.length]
        else [])
      else
        (if 10 < len ∧ ice2 = IceState.NICE_READY then
          [Call.sendData (writeComp fns t (memcpy t.protectBuf_ data len)) (memcpy t.protectBuf_ data len) len]
        else []) := by
  rw [callsMade_of_append t _ _ (write_calls fns t data len ice1 ice2 res n hn h)]
  unfold writeProtects
  rcases hch : writeChannel fns t (memcpy t.protectBuf_ data len) with ⟨c, _ | srtp⟩
  · simp only [Option.isSome_none, Bool.false_and, Bool.false_eq_true, if_false]
    by_cases hs : 10 < len ∧ ice2 = IceState.NICE_READY
    · rw [if_pos hs]
      rfl
    · rw [if_neg hs]
      rfl
  · by_cases hi : ice1 = IceState.NICE_READY
    · have hp : (protectCall fns c srtp (memcpy t.protectBuf_ data len) len).isSendData = false := by
        unfold protectCall
        split <;> rfl
      simp only [hi, if_true, Option.isSome_some, decide_True, Bool.and_self, List.filter_cons,
        hp, Bool.false_eq_true, if_false]
      by_cases hs : 0 ≤ res.ret ∧ 10 < res.length ∧ IceState.NICE_READY = IceState.NICE_READY
      · by_cases h2 : ice2 = IceState.NICE_READY
        · simp only [h2, and_true, true_and] at hs ⊢
          rw [if_pos hs]
          rfl
        · simp [h2]
      · by_cases h2 : ice2 = IceState.NICE_READY
        · simp only [h2, and_true, true_and] at hs ⊢
          rw [if_neg hs]
          rfl
        · simp [h2]
    · simp only [hi, if_false, Option.isSome_some, decide_False, Bool.and_false,
        Bool.false_eq_true]
      by_cases hs : 10 < len ∧ ice2 = IceState.NICE_READY
      · rw [if_pos hs]
        rfl
      · rw [if_neg hs]
        rfl

/-- C12: for a `write` call in state READY on a transport that has its ICE
connection, the calls made contain exactly one `sendData` if the protect call
(when the call is reached) did not return a negative value, the length it left
(the caller's length when no protect call is reached) is greater than 10 and
the `checkIceState` call that guards the send answers `NICE_READY`; otherwise
they contain none.  In particular nothing is sent when that length is 10 or
less, when the protect call fails, or when the ICE state is not `NICE_READY`.
The buffer sent is `protectBuf_`, into which the record's `len` bytes have been
copied, as the protect call left it when one was made. -/
theorem write_forwards_once_iff (fns : PacketFns) (t : DtlsTransport) (data : Bytes)
    (len : Int) (ice1 ice2 : IceState) (res : SrtpResult) (n : NiceConnection)
    (hn : t.nice_ = some n) (h : t.state_ = TransportState.TRANSPORT_READY) :
    ((callsMade t (write fns t data len ice1 ice2 res)).filter Call.isSendData =
        if writeProtects fns t (memcpy t.protectBuf_ data len) ice1 = true then
          (if 0 ≤ res.ret ∧ 10 < res.length ∧ ice2 = IceState.NICE_READY then
            [Call.sendData (writeComp fns t (memcpy t.protectBuf_ data len)) res.buf res.length]
          else [])
        else
          (if 10 < len ∧ ice2 = IceState.NICE_READY then
            [Call.sendData (writeComp fns t (memcpy t.protectBuf_ data len)) (memcpy t.protectBuf_ data len) len]
          else [])) ∧
      ((if writeProtects fns t (memcpy t.protectBuf_ data len) ice1 = true then res.length else len) ≤ 10 →
        (callsMade t (write fns t data len ice1 ice2 res)).filter Call.isSendData = []) ∧
      (writeProtects fns t (memcpy t.protectBuf_ data len) ice1 = true → res.ret < 0 →
        (callsMade t (write fns t data len ice1 ice2 res)).filter Call.isSendData = []) ∧
      (ice2 ≠ IceState.NICE_READY →
        (callsMade t (write fns t data len ice1 ice2 res)).filter Call.isSendData = []) := by
  have hs := write_sends fns t data len ice1 ice2 res n hn h
  refine ⟨hs, ?_, ?_, ?_⟩
  · intro hle
    rw [hs]
    by_cases hp : writeProtects fns t (memcpy t.protectBuf_ data len) ice1 = true
    · rw [if_pos hp] at hle ⊢
      have : ¬(0 ≤ res.ret ∧ 10 < res.length ∧ ice2 = IceState.NICE_READY) :=
        fun hc => absurd hc.2.1 (not_lt.mpr hle)
      rw [if_neg this]
    · rw [if_neg hp] at hle ⊢
      have : ¬(10 < len ∧ ice2 = IceState.NICE_READY) :=
        fun hc => absurd hc.1 (not_lt.mpr hle)
      rw [if_neg this]
  · intro hp hr
    rw [hs, if_pos hp]
    have : ¬(0 ≤ res.ret ∧ 10 < res.length ∧ ice2 = IceState.NICE_READY) :=
      fun hc => absurd hc.1 (not_le.mpr hr)
    rw [if_neg this]
  · intro hi
    rw [hs]
    by_cases hp : writeProtects fns t (memcpy t.protectBuf_ data len) ice1 = true
    · rw [if_pos hp]
      have : ¬(0 ≤ res.ret ∧ 10 < res.length ∧ ice2 = IceState.NICE_READY) :=
        fun hc => hi hc.2.2
      rw [if_neg this]
    · rw [if_neg hp]
      have : ¬(10 < len ∧ ice2 = IceState.NICE_READY) := fun hc => hi hc.2
      rw [if_neg this]

/-- Witness for C12: on the READY transport, with both ICE answers
`NICE_READY`, an RTP record whose protect call leaves 22 bytes is sent once,
and the same record is not sent when the protect call leaves 10 bytes. -/
theorem write_forwards_once_iff_witness :
    readyTransport.state_ = TransportState.TRANSPORT_READY ∧
      (callsMade readyTransport
          (write sampleFns readyTransport [128, 96, 0, 1, 2, 3, 4, 5, 6, 7, 8, 9] 12
            IceState.NICE_READY IceState.NICE_READY
            { ret := 0, length := 22, buf := [9, 9] })).filter Call.isSendData =
        [Call.sendData 1 [9, 9] 22] ∧
      (callsMade readyTransport
          (write sampleFns readyTransport [128, 96, 0, 1, 2, 3, 4, 5, 6, 7, 8, 9] 12
            IceState.NICE_READY IceState.NICE_READY
            { ret := 0, length := 10, buf := [9, 9] })).filter Call.isSendData = [] :=
  ⟨rfl,
    (write_forwards_once_iff sampleFns readyTransport [128, 96, 0, 1, 2, 3, 4, 5, 6, 7, 8, 9] 12
      IceState.NICE_READY IceState.NICE_READY { ret := 0, length := 22, buf := [9, 9] }
      { comps := 2 } rfl rfl).1,
    (write_forwards_once_iff sampleFns readyTransport [128, 96, 0, 1, 2, 3, 4, 5, 6, 7, 8, 9] 12
      IceState.NICE_READY IceState.NICE_READY { ret := 0, length := 10, buf := [9, 9] }
      { comps := 2 } rfl rfl).2.1 (by decide)⟩

/-! ## Transports reachable from the constructor -/

theorem onHandshakeCompleted_rtcp_mux (t : DtlsTransport) (ctx : CtxPtr) (ck sk prof : String)
    (ok : Bool) : (onHandshakeCompleted t ctx ck sk prof ok).rtcp_mux_ = t.rtcp_mux_ := by
  unfold onHandshakeCompleted
  cases ctx <;> cases ok <;> cases h : t.dtlsRtcp <;> cases h1 : t.readyRtp <;>
    cases h2 : t.readyRtcp <;>
    simp [dtlsRtpGet, dtlsRtcpGet, updateTransportState, h, h1, h2]

theorem onHandshakeCompleted_nice (t : DtlsTransport) (ctx : CtxPtr) (ck sk prof : String)
    (ok : Bool) : (onHandshakeCompleted t ctx ck sk prof ok).nice_ = t.nice_ := by
  unfold onHandshakeCompleted
  cases ctx <;> cases ok <;> cases h : t.dtlsRtcp <;> cases h1 : t.readyRtp <;>
    cases h2 : t.readyRtcp <;>
    simp [dtlsRtpGet, dtlsRtcpGet, updateTransportState, h, h1, h2]

theorem rtpResenderFires_keyFrame (t : DtlsTransport) (val : Int) :
    KeyFrame t (rtpResenderFires t val) := by
  unfold rtpResenderFires
  split
  · exact keyFrame_refl t
  · split
    · exact keyFrame_refl t
    · exact ⟨rfl, rfl, rfl, rfl, rfl, rfl, rfl, rfl⟩

theorem rtcpResenderFires_keyFrame (t : DtlsTransport) (val : Int) :
    KeyFrame t (rtcpResenderFires t val) := by
  unfold rtcpResenderFires
  split
  · exact keyFrame_refl t
  · split
    · exact keyFrame_refl t
    · exact ⟨rfl, rfl, rfl, rfl, rfl, rfl, rfl, rfl⟩

theorem reachable_configuration (t : DtlsTransport) (h : Reachable t) :
    t.dtlsRtcp.isSome = !t.rtcp_mux_ ∧ t.nice_.isSome = true := by
  induction h with
  | new bundle rtcp_mux => cases rtcp_mux <;> simp [DtlsTransport.new]
  | onNiceData fns component_id data len res _ h2 ih =>
    have k := onNiceData_frame fns _ _ component_id data len res h2
    rw [k.dtlsRtcp, k.rtcp_mux_, k.nice_]
    exact ih
  | onCandidate candidate _ ih => exact ih
  | @write t0 fns data len ice1 ice2 res _ ih =>
    have k := write_frame fns t0 data len ice1 ice2 res
    rw [k.dtlsRtcp, k.rtcp_mux_, k.nice_]
    exact ih
  | writeDtls ctx data len _ h2 ih =>
    have k := writeDtls_frame _ _ ctx data len h2
    rw [k.dtlsRtcp, k.rtcp_mux_, k.nice_]
    exact ih
  | onHandshakeCompleted ctx ck sk prof ok _ ih =>
    rw [onHandshakeCompleted_dtlsRtcp, onHandshakeCompleted_rtcp_mux, onHandshakeCompleted_nice]
    exact ih
  | updateIceState state _ h2 ih =>
    have k := updateIceState_fields _ _ state h2
    rw [k.2.2.2.2.2.1, k.2.2.2.2.2.2.2, k.2.2.2.2.2.2.1]
    exact ih
  | @rtpResenderFires t0 val _ ih =>
    have k := rtpResenderFires_keyFrame t0 val
    rw [k.dtlsRtcp, k.rtcp_mux_, k.nice_]
    exact ih
  | @rtcpResenderFires t0 val _ ih =>
    have k := rtcpResenderFires_keyFrame t0 val
    rw [k.dtlsRtcp, k.rtcp_mux_, k.nice_]
    exact ih

theorem write_routing_reachable (fns : PacketFns) (t : DtlsTransport) (buf : Bytes)
    (hr : Reachable t) :
    writeChannel fns t buf =
        (if fns.isRtcp buf = true ∧ t.rtcp_mux_ = false then (Comp.rtcp, t.srtcp_)
          else (Comp.rtp, t.srtp_)) ∧
      (writeComp fns t buf = 2 ↔ (writeChannel fns t buf).1 = Comp.rtcp) ∧
      (writeComp fns t buf = 1 ↔ (writeChannel fns t buf).1 = Comp.rtp) := by
  have hc := (reachable_configuration t hr).1
  unfold writeChannel writeComp
  cases hm : t.rtcp_mux_ <;> cases hi : fns.isRtcp buf <;> cases hd : t.dtlsRtcp <;>
    simp [hm, hi, hd] at hc ⊢

/-- C13 (failing input): on the non-muxed READY transport, a `write` of a
12-byte record with an RTCP header during which the first `checkIceState` call
does not answer `NICE_READY` and the second one does sends the record on
component 2 without any protect call: the forwarded datagram has not been
protected with the RTCP channel. -/
theorem write_forwards_rtcp_record_without_protect_call :
    readyTransport.rtcp_mux_ = false ∧
      sampleFns.isRtcp [128, 200, 0, 1, 2, 3, 4, 5, 6, 7, 8, 9] = true ∧
      callsMade readyTransport
          (write sampleFns readyTransport [128, 200, 0, 1, 2, 3, 4, 5, 6, 7, 8, 9] 12
            IceState.NICE_CANDIDATES_RECEIVED IceState.NICE_READY
            { ret := 0, length := 22, buf := [9, 9] }) =
        [Call.sendData 2 [128, 200, 0, 1, 2, 3, 4, 5, 6, 7, 8, 9] 12] := by
  refine ⟨rfl, rfl, rfl⟩

/-! ## Connectivity becoming usable -/

theorem restartNeeded_iff (started : Bool) (r : Resender) :
    restartNeeded started (some r) = true ↔ (started = false ∨ r.getStatus < 0) := by
  cases started <;> simp [restartNeeded]

theorem restartRtp_ok (t : DtlsTransport)
    (hr : t.dtlsRtp.started = true → t.rtpResender.isSome = true) :
    restartRtp t =
      Except.ok (if restartNeeded t.dtlsRtp.started t.rtpResender = true then startDtlsRtp t
        else t) := by
  unfold restartRtp restartNeeded
  cases hs : t.dtlsRtp.started with
  | false => simp
  | true =>
    cases hres : t.rtpResender with
    | none => simp [hs, hres] at hr
    | some r => by_cases hneg : r.getStatus < 0 <;> simp [hneg]

theorem restartRtcp_ok (t : DtlsTransport)
    (hc : ∀ s, t.dtlsRtcp = some s → s.started = true → t.rtcpResender.isSome = true) :
    restartRtcp t =
      Except.ok
        (match t.dtlsRtcp with
        | none => t
        | some s =>
          if restartNeeded s.started t.rtcpResender = true then startDtlsRtcp t s else t) := by
  unfold restartRtcp restartNeeded
  cases hd : t.dtlsRtcp with
  | none => rfl
  | some s =>
    cases hs : s.started with
    | false => simp [hs]
    | true =>
      cases hres : t.rtcpResender with
      | none =>
        have := hc s hd hs
        rw [hres] at this
        cases this
      | some r => by_cases hneg : r.getStatus < 0 <;> simp [hneg, hs]

theorem updateIceState_ready_eq (t : DtlsTransport) :
    updateIceState t IceState.NICE_READY =
      match restartRtp t with
      | Except.error e => Except.error e
      | Except.ok t3 => restartRtcp t3 := by
  simp [updateIceState]

theorem updateIceState_ready_ok (t : DtlsTransport)
    (hr : t.dtlsRtp.started = true → t.rtpResender.isSome = true)
    (hc : ∀ s, t.dtlsRtcp = some s → s.started = true → t.rtcpResender.isSome = true) :
    ∃ t2, updateIceState t IceState.NICE_READY = Except.ok t2 ∧
      t2.calls = t.calls ++
        ((if restartNeeded t.dtlsRtp.started t.rtpResender = true then
            [Call.dtlsStart Comp.rtp] else []) ++
          (match t.dtlsRtcp with
          | some s =>
            if restartNeeded s.started t.rtcpResender = true then [Call.dtlsStart Comp.rtcp]
            else []
          | none => [])) := by
  rw [updateIceState_ready_eq, restartRtp_ok t hr]
  simp only
  by_cases hn : restartNeeded t.dtlsRtp.started t.rtpResender = true
  · rw [if_pos hn, if_pos hn]
    have hc2 : ∀ s, (startDtlsRtp t).dtlsRtcp = some s → s.started = true →
        (startDtlsRtp t).rtcpResender.isSome = true := hc
    rw [restartRtcp_ok (startDtlsRtp t) hc2]
    refine ⟨_, rfl, ?_⟩
    show (match t.dtlsRtcp with
      | none => startDtlsRtp t
      | some s => if restartNeeded s.started t.rtcpResender = true
          then startDtlsRtcp (startDtlsRtp t) s else startDtlsRtp t).calls = _
    cases hd : t.dtlsRtcp with
    | none => simp [startDtlsRtp, logCall]
    | some s =>
      by_cases hn2 : restartNeeded s.started t.rtcpResender = true <;>
        simp [hn2, startDtlsRtp, startDtlsRtcp, logCall]
  · rw [if_neg hn, if_neg hn, restartRtcp_ok t hc]
    refine ⟨_, rfl, ?_⟩
    cases hd : t.dtlsRtcp with
    | none => simp
    | some s =>
      by_cases hn2 : restartNeeded s.started t.rtcpResender = true <;>
        simp [hn2, startDtlsRtcp, logCall]

/-- C14: on `updateIceState(NICE_READY)`, for a transport in which every
started session has a Resender, the call returns and the calls it makes are
`start()` on the RTP session exactly when that session has not started or the
RTP Resender's status is negative, followed by `start()` on the RTCP session
exactly when that session exists and has not started or the RTCP Resender's
status is negative.  Of the four statuses a Resender takes only failed (-1) is
negative: a started session whose Resender is pending (0), cancelled (1) or
resent (2) is not restarted.  The transport state is unchanged. -/
theorem nice_ready_starts_unstarted_or_failed_sessions (t : DtlsTransport)
    (hr : t.dtlsRtp.started = true → t.rtpResender.isSome = true)
    (hc : ∀ s, t.dtlsRtcp = some s → s.started = true → t.rtcpResender.isSome = true) :
    ∃ t2, updateIceState t IceState.NICE_READY = Except.ok t2 ∧
      callsMade t t2 =
        ((if restartNeeded t.dtlsRtp.started t.rtpResender = true then
            [Call.dtlsStart Comp.rtp] else []) ++
          (match t.dtlsRtcp with
          | some s =>
            if restartNeeded s.started t.rtcpResender = true then [Call.dtlsStart Comp.rtcp]
            else []
          | none => [])) ∧
      t2.state_ = t.state_ ∧
      (∀ (started : Bool) (r : Resender),
        restartNeeded started (some r) = true ↔ (started = false ∨ r.getStatus < 0)) ∧
      (∀ r : Resender, r.getStatus = -1 → restartNeeded true (some r) = true) ∧
      (∀ r : Resender, r.getStatus = 0 ∨ r.getStatus = 1 ∨ r.getStatus = 2 →
        restartNeeded true (some r) = false) := by
  obtain ⟨t2, h2, hcalls⟩ := updateIceState_ready_ok t hr hc
  refine ⟨t2, h2, callsMade_of_append t t2 _ hcalls, ?_, restartNeeded_iff, ?_, ?_⟩
  · have k := (updateIceState_fields t t2 IceState.NICE_READY h2).1
    simpa [stateAfterIce] using k
  · intro r h
    rw [restartNeeded_iff]
    right
    rw [h]
    decide
  · intro r h
    cases hb : restartNeeded true (some r) with
    | false => rfl
    | true =>
      rw [restartNeeded_iff] at hb
      rcases hb with hb | hb
      · cases hb
      · rcases h with h | h | h <;> rw [h] at hb <;> exact absurd hb (by decide)

/-- Witness for C14: on a transport whose two sessions have started, whose RTP
Resender is pending and whose RTCP Resender has failed, `NICE_READY` restarts
the RTCP session only. -/
theorem nice_ready_starts_unstarted_or_failed_sessions_witness :
    ∃ t2, updateIceState rtcpResendFailedTransport IceState.NICE_READY = Except.ok t2 ∧
      callsMade rtcpResendFailedTransport t2 = [Call.dtlsStart Comp.rtcp] ∧
      t2.state_ = rtcpResendFailedTransport.state_ :=
  match nice_ready_starts_unstarted_or_failed_sessions rtcpResendFailedTransport
    (fun _ => rfl) (fun _ _ _ => rfl) with
  | ⟨t2, h1, h2, h3, _⟩ => ⟨t2, h1, h2, h3⟩

/-! ## Resender status -/

/-- C15 (counterexample): a Resender whose resend has run with a `sendData`
that returned -1 reports status -1, and after `cancel()` it reports status 1;
one whose resend has run with a successful write reports 2, and after
`cancel()` it reports 1. -/
theorem cancel_overwrites_recorded_status :
    (sampleResender.resend false (-1)).1.getStatus = -1 ∧
      (sampleResender.resend false (-1)).1.cancel.getStatus = 1 ∧
      (sampleResender.resend false 2).1.getStatus = 2 ∧
      (sampleResender.resend false 2).1.cancel.getStatus = 1 := by
  refine ⟨rfl, rfl, rfl, rfl⟩

/-- C15 (amended): `cancel()` sets the status to cancelled (1) whatever it was
before: for every Resender, also one whose resend has already run, with any
value returned by its `sendData` call, `getStatus()` returns 1 after `cancel()`.
The call leaves the stored component, bytes and length as they were, and it
changes the timer only by aborting a wait whose delay has not elapsed. -/
theorem cancel_sets_status_cancelled (r : Resender) (aborted : Bool) (val : Int) :
    r.cancel.getStatus = 1 ∧
      (r.resend aborted val).1.cancel.getStatus = 1 ∧
      r.cancel.comp_ = r.comp_ ∧ r.cancel.data_ = r.data_ ∧ r.cancel.len_ = r.len_ ∧
      r.cancel.timer = (if r.timer = TimerState.waiting then TimerState.idle else r.timer) := by
  refine ⟨rfl, rfl, rfl, rfl, rfl, ?_⟩
  unfold Resender.cancel
  cases r.timer <;> rfl

/-! ## Handshake flights -/

theorem writeDtls_resenders (t t2 : DtlsTransport) (ctx : CtxPtr) (data : Bytes) (len : Nat)
    (h : writeDtls t ctx data len = Except.ok t2) :
    resenderOf t2 (writeDtlsSlot t ctx) =
        some { nice_ := t.nice_, comp_ := writeDtlsComp t ctx, data_ := data, len_ := len,
               sent_ := 0, timer := TimerState.waiting } ∧
      resenderOf t2 (writeDtlsSlot t ctx).other = resenderOf t (writeDtlsSlot t ctx).other := by
  unfold writeDtls at h
  simp only at h
  split at h
  · cases h
  · cases h
    by_cases hc : ctx = dtlsRtcpGet t <;>
      simp [hc, logCall, writeDtlsSlot, writeDtlsComp, resenderOf, Comp.other, Resender.start]

/-- C16: for every `writeDtls` call on a transport that has its ICE
connection, with any session pointer, any bytes and any transport state, the
call returns after exactly two calls: the start of a fresh Resender and one
`sendData` of the same bytes and length on the session's component, which is 2
when the pointer is the RTCP session and 1 otherwise.  Afterwards that
component's slot holds the fresh Resender (same bytes, length and component,
status 0, timer armed) in place of any previous one, the other component's
Resender is as it was, and the state, flags, sessions and channels are as they
were. -/
theorem writeDtls_sends_once_and_rearms (t : DtlsTransport) (ctx : CtxPtr) (data : Bytes)
    (len : Nat) (n : NiceConnection) (hn : t.nice_ = some n) :
    ∃ t2, writeDtls t ctx data len = Except.ok t2 ∧
      callsMade t t2 =
        [Call.resenderStart (writeDtlsSlot t ctx) (writeDtlsComp t ctx) data len,
          Call.sendData (writeDtlsComp t ctx) data len] ∧
      resenderOf t2 (writeDtlsSlot t ctx) =
        some { nice_ := t.nice_, comp_ := writeDtlsComp t ctx, data_ := data, len_ := len,
               sent_ := 0, timer := TimerState.waiting } ∧
      resenderOf t2 (writeDtlsSlot t ctx).other = resenderOf t (writeDtlsSlot t ctx).other ∧
      Frame t t2 ∧
      (ctx ≠ CtxPtr.null →
        ((writeDtlsComp t ctx = 2 ↔ (ctx = CtxPtr.rtcp ∧ t.dtlsRtcp.isSome = true)) ∧
          (writeDtlsSlot t ctx = Comp.rtcp ↔ (ctx = CtxPtr.rtcp ∧ t.dtlsRtcp.isSome = true)))) := by
  obtain ⟨t2, h2⟩ := writeDtls_returns t ctx data len n hn
  refine ⟨t2, h2, ?_, (writeDtls_resenders t t2 ctx data len h2).1,
    (writeDtls_resenders t t2 ctx data len h2).2, writeDtls_frame t t2 ctx data len h2, ?_⟩
  · apply callsMade_of_append
    rw [writeDtls_calls t t2 ctx data len h2]
    by_cases hc : ctx = dtlsRtcpGet t <;> simp [hc, writeDtlsSlot, writeDtlsComp]
  · intro hnull
    unfold writeDtlsComp writeDtlsSlot dtlsRtcpGet
    cases hd : t.dtlsRtcp <;> cases ctx <;> simp at hnull ⊢

/-- Witness for C16: on the transport whose RTP session has already sent a
flight, a flight of the RTCP session is sent on component 2, arms a fresh RTCP
Resender and leaves the RTP Resender alone. -/
theorem writeDtls_sends_once_and_rearms_witness :
    ∃ t2, writeDtls flightSentTransport CtxPtr.rtcp [22, 7, 7] 3 = Except.ok t2 ∧
      callsMade flightSentTransport t2 =
        [Call.resenderStart Comp.rtcp 2 [22, 7, 7] 3, Call.sendData 2 [22, 7, 7] 3] ∧
      t2.rtpResender = flightSentTransport.rtpResender :=
  match writeDtls_sends_once_and_rearms flightSentTransport CtxPtr.rtcp [22, 7, 7] 3
    { comps := 2 } rfl with
  | ⟨t2, h1, h2, _, h4, _⟩ => ⟨t2, h1, h2, h4⟩

/-! ## Local candidates -/

/-- C17 (counterexample): the line built for a peer-reflexive (`PRFLX`)
candidate carries no `raddr`/`rport` part although the candidate has a related
address and port. -/
theorem prflx_candidate_line_has_no_raddr :
    candidateSdp
        { foundation := "3", componentId := 1, netProtocol := "udp", priority := 1862270975,
          hostAddress := "88.1.2.3", hostPort := 50483, hostType := HostType.PRFLX,
          rAddress := "192.168.0.12", rPort := 50483 } =
      "a=candidate:3 1 udp 1862270975 88.1.2.3 50483 typ prflx generation 0" := by
  decide

/-- C17 (amended): for every local candidate the line handed to the listener
is `a=candidate:<foundation> <componentId> <netProtocol> <priority>
<hostAddress> <hostPort> typ <type>`, followed by ` raddr <rAddress> rport
<rPort>` exactly when the type is `SRFLX` or `RELAY` (not for `HOST` and not for
`PRFLX`), followed by ` generation 0`, where `<type>` is `host`, `srflx`, `prflx`
or `relay` according to the candidate's type.  The call hands that line to the
listener once and changes nothing else in the transport. -/
theorem candidate_line_format (t : DtlsTransport) (c : CandidateInfo) :
    candidateSdp c =
        "a=candidate:" ++ c.foundation ++ " " ++ toString c.componentId ++ " " ++
          c.netProtocol ++ " " ++ toString c.priority ++ " " ++ c.hostAddress ++ " " ++
          toString c.hostPort ++ " typ " ++
          (match c.hostType with
            | HostType.HOST => "host"
            | HostType.SRFLX => "srflx"
            | HostType.PRFLX => "prflx"
            | HostType.RELAY => "relay") ++
          (if c.hostType = HostType.SRFLX ∨ c.hostType = HostType.RELAY then
            " raddr " ++ c.rAddress ++ " rport " ++ toString c.rPort
          else "") ++
          " generation 0" ∧
      onCandidate t c = { t with calls := t.calls ++ [Call.onCandidate (candidateSdp c)] } := by
  refine ⟨?_, rfl⟩
  unfold candidateSdp OStringStream.str
  cases h : c.hostType <;>
    simp only [String.join, List.foldl, String.append_assoc, String.empty_append, true_or,
      or_true, or_self, if_true, if_false, List.cons_append, List.nil_append, reduceCtorEq,
      String.append_empty]

/-! ## Packet-level failures -/

/-- C18: for every transport, every datagram that is not classified as DTLS
and every outcome of the unprotect call, `onNiceData` returns with the
transport state, both readiness flags and both Secure Channels as they were;
and for every buffer, every pair of ICE-state answers and every outcome of the
protect call, `write` leaves them as they were too. -/
theorem packet_processing_keeps_transport_state (fns : PacketFns) (t : DtlsTransport) :
    (∀ (component_id : Nat) (data : Bytes) (len : Int) (res : SrtpResult),
        isDtlsPacket fns data len = false →
          ∃ t2, onNiceData fns t component_id data len res = Except.ok t2 ∧
            t2.state_ = t.state_ ∧ t2.readyRtp = t.readyRtp ∧ t2.readyRtcp = t.readyRtcp ∧
            t2.srtp_ = t.srtp_ ∧ t2.srtcp_ = t.srtcp_) ∧
      (∀ (data : Bytes) (len : Int) (ice1 ice2 : IceState) (res : SrtpResult),
        (write fns t data len ice1 ice2 res).state_ = t.state_ ∧
          (write fns t data len ice1 ice2 res).readyRtp = t.readyRtp ∧
          (write fns t data len ice1 ice2 res).readyRtcp = t.readyRtcp ∧
          (write fns t data len ice1 ice2 res).srtp_ = t.srtp_ ∧
          (write fns t data len ice1 ice2 res).srtcp_ = t.srtcp_) := by
  constructor
  · intro component_id data len res hd
    obtain ⟨t2, h2, _⟩ := onNiceData_media_calls fns t component_id data len res hd
    have k := onNiceData_frame fns t t2 component_id data len res h2
    exact ⟨t2, h2, k.state_, k.readyRtp, k.readyRtcp, k.srtp_, k.srtcp_⟩
  · intro data len ice1 ice2 res
    have k := write_frame fns t data len ice1 ice2 res
    exact ⟨k.state_, k.readyRtp, k.readyRtcp, k.srtp_, k.srtcp_⟩

/-- Witness for C18: on the READY transport a media datagram whose unprotect
call fails and a record whose protect call fails both leave the state READY. -/
theorem packet_processing_keeps_transport_state_witness :
    (∃ t2, onNiceData sampleFns readyTransport 1 [128, 96, 0, 1] 4
          { ret := -1, length := 4, buf := [] } = Except.ok t2 ∧
        t2.state_ = TransportState.TRANSPORT_READY) ∧
      (write sampleFns readyTransport [128, 96, 0, 1, 2, 3, 4, 5, 6, 7, 8, 9] 12
          IceState.NICE_READY IceState.NICE_READY
          { ret := -1, length := 12, buf := [] }).state_ = TransportState.TRANSPORT_READY :=
  ⟨match (packet_processing_keeps_transport_state sampleFns readyTransport).1 1
      [128, 96, 0, 1] 4 { ret := -1, length := 4, buf := [] } rfl with
    | ⟨t2, h1, h2, _⟩ => ⟨t2, h1, h2⟩,
    ((packet_processing_keeps_transport_state sampleFns readyTransport).2
      [128, 96, 0, 1, 2, 3, 4, 5, 6, 7, 8, 9] 12 IceState.NICE_READY IceState.NICE_READY
      { ret := -1, length := 12, buf := [] }).1⟩

/-! ## DTLS records and the sessions that exist -/

theorem onNiceData_dtls_absent_session (fns : PacketFns) (t : DtlsTransport)
    (component_id : Nat) (data : Bytes) (len : Int) (res : SrtpResult)
    (h1 : isDtlsPacket fns data len = true) (h2 : component_id ≠ 1)
    (h3 : t.dtlsRtcp = none) :
    onNiceData fns t component_id data len res = Except.error Fault.nullDeref := by
  rw [onNiceData_dtls_rtcp fns t component_id data len res h1 h2]
  have hk := (frame_cancelRtcpResender t).dtlsRtcp
  rw [h3] at hk
  rw [hk]

/-- C20: for every transport reachable from the constructor and every
datagram classified as DTLS: when the component id is 1, or is 2 on a transport
whose RTCP is not muxed, `onNiceData` returns and has handed the bytes, with
their length, to the DTLS session of that component, which exists; and on a
transport whose RTCP is muxed every component id other than 1 makes the call
read through the RTCP session pointer that was never set. -/
theorem dtls_read_reaches_existing_session (fns : PacketFns) (t : DtlsTransport)
    (component_id : Nat) (data : Bytes) (len : Int) (res : SrtpResult)
    (hr : Reachable t) (hd : isDtlsPacket fns data len = true) :
    ((component_id = 1 ∨ (component_id = 2 ∧ t.rtcp_mux_ = false)) →
        ∃ t2, onNiceData fns t component_id data len res = Except.ok t2 ∧
          Call.dtlsRead (dtlsSlot component_id) data len ∈ callsMade t t2 ∧
          (dtlsSlot component_id = Comp.rtcp → t.dtlsRtcp.isSome = true)) ∧
      (t.rtcp_mux_ = true → component_id ≠ 1 →
        onNiceData fns t component_id data len res = Except.error Fault.nullDeref) := by
  have hcfg := (reachable_configuration t hr).1
  constructor
  · intro hc
    have hsess : component_id = 1 ∨ t.dtlsRtcp.isSome = true := by
      rcases hc with h1 | ⟨_, hm⟩
      · exact Or.inl h1
      · right
        rw [hcfg, hm]
        rfl
    obtain ⟨t2, h2⟩ := onNiceData_dtls_returns fns t component_id data len res hd hsess
    refine ⟨t2, h2, ?_, ?_⟩
    · rw [callsMade_of_append t t2 _
        (onNiceData_dtls_calls fns t t2 component_id data len res hd h2)]
      simp
    · intro hslot
      rcases hsess with h1 | h1
      · simp [dtlsSlot, h1] at hslot
      · exact h1
  · intro hm hne
    apply onNiceData_dtls_absent_session fns t component_id data len res hd hne
    rw [hm] at hcfg
    cases hdt : t.dtlsRtcp with
    | none => rfl
    | some d => simp [hdt] at hcfg

/-- Witness for C20: on a freshly built muxed transport a DTLS record on
component 1 reaches the RTP session, and one on component 2 reads through the
absent RTCP session. -/
theorem dtls_read_reaches_existing_session_witness :
    (∃ t2, onNiceData sampleFns (DtlsTransport.new true true) 1 [22, 1, 2] 3
          { ret := 0, length := 0, buf := [] } = Except.ok t2 ∧
        Call.dtlsRead Comp.rtp [22, 1, 2] 3 ∈ callsMade (DtlsTransport.new true true) t2) ∧
      onNiceData sampleFns (DtlsTransport.new true true) 2 [22, 1, 2] 3
          { ret := 0, length := 0, buf := [] } = Except.error Fault.nullDeref :=
  ⟨match (dtls_read_reaches_existing_session sampleFns (DtlsTransport.new true true) 1
      [22, 1, 2] 3 { ret := 0, length := 0, buf := [] } (Reachable.new true true) rfl).1
      (Or.inl rfl) with
    | ⟨t2, h1, h2, _⟩ => ⟨t2, h1, h2⟩,
    (dtls_read_reaches_existing_session sampleFns (DtlsTransport.new true true) 2
      [22, 1, 2] 3 { ret := 0, length := 0, buf := [] } (Reachable.new true true) rfl).2
      rfl (by decide)⟩

end erizo
